import Mathlib

set_option maxRecDepth 8000

/-!
Verification development for the TKX_ThreadX safety supervisor.

This file gives a shallow embedding, in Lean 4, of the safety-relevant parts
of the repository (SafetyCore state machine, watchdog token protocol, flow
monitor, parameter validator, incremental flash CRC self-test, and the
monitor thread's degraded-mode timeout check), translated from the C sources
under `Safety/Src` and `Shared/Inc`, together with theorems settling the
stated properties of the specification.

Modelling conventions:
* `uint32_t` values are `Nat` with explicit `% 2^32` (or masking) where the C
  code can overflow or wrap; `uint32_t` subtraction is `u32sub`.
* The module-static singletons (`s_safety_ctx`, the error log, `s_wdg_status`,
  `s_flow_ctx`, ...) become explicit state structures threaded through the
  functions.
* `HAL_GetTick()` / `tx_time_get()` become an explicit `now : Nat` parameter
  (a single millisecond clock, matching the configuration in which the ThreadX
  tick is 1 ms).
* Function-pointer callbacks are modelled by registration flags plus an event
  trace: each invocation appends an event recording the context state observed
  at the moment of the call, which makes callback ordering provable.
* GPIO/hardware side effects (`Safety_SetSafeOutputs`, `HAL_IWDG_Refresh`)
  have no observable effect on the modelled state beyond the fields the C code
  updates (e.g. `feed_count`); diagnostic printing (`DEBUG_*`) is dropped.
* Compile-time configuration follows `safety_config.h`:
  `DEGRADED_MODE_ENABLED = 1`, `DEGRADED_MODE_WDG_FEED = 1` (so
  `Safety_EnterSafeState` returns instead of spinning).
-/

namespace TKX

/-- Wrap-around modulus of `uint32_t`. -/
def UINT32_MOD : Nat := 0x100000000

/-- Subtraction of `uint32_t` values as performed by the C code
(`a - b` with wrap-around). -/
def u32sub (a b : Nat) : Nat := (a + UINT32_MOD - b % UINT32_MOD) % UINT32_MOD

/-! ## SafetyCore: states, errors, status codes (safety_core.h, safety_config.h) -/

/-- The enum safety_state_t of safety_core.h. -/
inductive SafetyState where
  | init          -- SAFETY_STATE_INIT = 0x00
  | startupTest   -- SAFETY_STATE_STARTUP_TEST = 0x01
  | normal        -- SAFETY_STATE_NORMAL = 0x02
  | degraded      -- SAFETY_STATE_DEGRADED = 0x03
  | safe          -- SAFETY_STATE_SAFE = 0x04
  | error         -- SAFETY_STATE_ERROR = 0xFF
deriving DecidableEq, Repr

/-- The enum safety_error_t of safety_core.h. -/
inductive SafetyError where
  | none | cpuTest | ramTest | flashCrc | clock | watchdog | stackOverflow
  | flowMonitor | paramInvalid | runtimeTest | mpuFault | hardFault
  | busFault | usageFault | nmi | internal
deriving DecidableEq, Repr

/-- Numeric codes of safety_error_t (used when an error is written to the log). -/
def SafetyError.code : SafetyError → Nat
  | .none => 0x00 | .cpuTest => 0x01 | .ramTest => 0x02 | .flashCrc => 0x03
  | .clock => 0x04 | .watchdog => 0x05 | .stackOverflow => 0x06
  | .flowMonitor => 0x07 | .paramInvalid => 0x08 | .runtimeTest => 0x09
  | .mpuFault => 0x0A | .hardFault => 0x0B | .busFault => 0x0C
  | .usageFault => 0x0D | .nmi => 0x0E | .internal => 0xFF

/-- The enum safety_status_t of safety_config.h. -/
inductive SafetyStatus where
  | ok            -- SAFETY_OK = 0x00
  | error         -- SAFETY_ERROR = 0x01
  | busy          -- SAFETY_BUSY = 0x02
  | timeout       -- SAFETY_TIMEOUT = 0x03
  | invalidParam  -- SAFETY_INVALID_PARAM = 0x04
deriving DecidableEq, Repr

/-- ERROR_LOG_MAX_ENTRIES of safety_config.h. -/
def ERROR_LOG_MAX_ENTRIES : Nat := 16

/-- The struct safety_error_log_t of safety_config.h. -/
structure LogEntry where
  timestamp : Nat
  error_code : Nat
  param1 : Nat
  param2 : Nat
deriving DecidableEq, Repr

/-- Callback invocations, recorded as events. `stateCb` additionally records
the context state observed at the moment the callback runs (`observed`),
which lets theorems express that the callback fires after the commit. -/
inductive CoreEvent where
  | errorCb (e : SafetyError)
  | stateCb (observed old_state new_state : SafetyState)
deriving DecidableEq, Repr

/-- The struct safety_context_t of safety_core.h. The two function-pointer
fields are modelled by registration flags (`..._cb_registered`); invocations
are recorded in the event trace of `CoreWorld`. -/
structure SafetyCtx where
  state : SafetyState
  last_error : SafetyError
  error_count : Nat
  startup_time : Nat
  degraded_enter_time : Nat
  startup_test_passed : Bool
  params_valid : Bool
  mpu_enabled : Bool
  watchdog_active : Bool
  error_cb_registered : Bool
  state_cb_registered : Bool
deriving DecidableEq, Repr

/-- The module state of safety_core.c: the context singleton `s_safety_ctx`,
the error-log ring buffer `s_error_log` with its index `s_error_log_index`,
and the trace of callback invocations. -/
structure CoreWorld where
  ctx : SafetyCtx
  errorLog : List LogEntry
  logIndex : Nat
  events : List CoreEvent
deriving DecidableEq, Repr

/-- Safety_EarlyInit of safety_core.c: zero the context and the log, set the
initial state. -/
def Safety_EarlyInit : CoreWorld :=
  { ctx := { state := .init, last_error := .none, error_count := 0,
             startup_time := 0, degraded_enter_time := 0,
             startup_test_passed := false, params_valid := false,
             mpu_enabled := false, watchdog_active := false,
             error_cb_registered := false, state_cb_registered := false },
    errorLog := List.replicate ERROR_LOG_MAX_ENTRIES ⟨0, 0, 0, 0⟩,
    logIndex := 0,
    events := [] }

/-- Safety_LogError of safety_core.c: write the ring-buffer slot at the
current index and advance the index modulo ERROR_LOG_MAX_ENTRIES. -/
def Safety_LogError (now : Nat) (e : SafetyError) (p1 p2 : Nat)
    (w : CoreWorld) : CoreWorld :=
  { w with
    errorLog := w.errorLog.set w.logIndex ⟨now, e.code, p1, p2⟩,
    logIndex := (w.logIndex + 1) % ERROR_LOG_MAX_ENTRIES }

/-- Safety_CallErrorCallback of safety_core.c. -/
def Safety_CallErrorCallback (e : SafetyError) (w : CoreWorld) : CoreWorld :=
  if w.ctx.error_cb_registered then
    { w with events := w.events ++ [.errorCb e] }
  else w

/-- Safety_CallStateCallback of safety_core.c. The recorded event carries the
context state at the moment of the call. -/
def Safety_CallStateCallback (old_state new_state : SafetyState)
    (w : CoreWorld) : CoreWorld :=
  if w.ctx.state_cb_registered then
    { w with events := w.events ++ [.stateCb w.ctx.state old_state new_state] }
  else w

/-- Safety_SetState of safety_core.c: validate the requested transition
against the current state (the C switch), then commit and invoke the state
callback. -/
def Safety_SetState (target : SafetyState) (w : CoreWorld) :
    SafetyStatus × CoreWorld :=
  let old_state := w.ctx.state
  let commit : CoreWorld → SafetyStatus × CoreWorld := fun w =>
    let w := { w with ctx := { w.ctx with state := target } }
    (.ok, Safety_CallStateCallback old_state target w)
  match w.ctx.state with
  | .init =>
      if target = .startupTest ∨ target = .safe then commit w
      else (.invalidParam, w)
  | .startupTest =>
      if target = .normal ∨ target = .safe then commit w
      else (.invalidParam, w)
  | .normal =>
      if target = .degraded ∨ target = .safe then commit w
      else (.invalidParam, w)
  | .degraded =>
      if target = .normal ∨ target = .safe then commit w
      else (.invalidParam, w)
  | .safe => (.error, w)       -- cannot leave SAFE (requires reset)
  | .error => (.invalidParam, w)  -- default branch of the switch

/-- Safety_EnterSafeState of safety_core.c (with DEGRADED_MODE_WDG_FEED = 1,
so the function returns instead of disabling interrupts and spinning).
`Safety_SetSafeOutputs` only drives GPIO pins and has no effect on the
modelled state. -/
def Safety_EnterSafeState (now : Nat) (e : SafetyError) (w : CoreWorld) :
    CoreWorld :=
  let old_state := w.ctx.state
  let w := Safety_LogError now e 0 0 w
  let w := { w with ctx := { w.ctx with
    state := .safe, last_error := e,
    error_count := (w.ctx.error_count + 1) % UINT32_MOD } }
  let w := Safety_CallStateCallback old_state .safe w
  Safety_CallErrorCallback e w

/-- Safety_EnterDegraded of safety_core.c (DEGRADED_MODE_ENABLED = 1). -/
def Safety_EnterDegraded (now : Nat) (e : SafetyError) (w : CoreWorld) :
    SafetyStatus × CoreWorld :=
  let old_state := w.ctx.state
  if old_state = .normal ∨ old_state = .startupTest then
    let w := { w with ctx := { w.ctx with
      state := .degraded, degraded_enter_time := now, last_error := e } }
    let w := Safety_CallStateCallback old_state .degraded w
    (.ok, Safety_CallErrorCallback e w)
  else (.error, w)

/-- Safety_ReportError of safety_core.c: log, count, then act according to
the fixed severity of the error code. -/
def Safety_ReportError (now : Nat) (e : SafetyError) (p1 p2 : Nat)
    (w : CoreWorld) : CoreWorld :=
  let w := Safety_LogError now e p1 p2 w
  let w := { w with ctx := { w.ctx with
    last_error := e, error_count := (w.ctx.error_count + 1) % UINT32_MOD } }
  match e with
  | .cpuTest | .ramTest | .hardFault | .busFault | .usageFault | .nmi =>
      -- critical errors: go to safe state
      Safety_EnterSafeState now e w
  | .flashCrc | .clock | .flowMonitor | .mpuFault =>
      -- serious errors: enter degraded mode / escalate
      if w.ctx.state = .normal then (Safety_EnterDegraded now e w).2
      else if w.ctx.state = .degraded then Safety_EnterSafeState now e w
      else w
  | .stackOverflow | .paramInvalid | .runtimeTest =>
      -- warning level: log and continue
      Safety_CallErrorCallback e w
  | _ =>
      Safety_CallErrorCallback e w

/-- Safety_IsOperational of safety_core.c. -/
def Safety_IsOperational (w : CoreWorld) : Bool :=
  w.ctx.state = .normal ∨ w.ctx.state = .degraded

/-- Safety_PeripheralInit of safety_core.c (the state transition it performs;
its SAFETY_OK result is constant). -/
def Safety_PeripheralInit (w : CoreWorld) : CoreWorld :=
  { w with ctx := { w.ctx with state := .startupTest } }

/-- Error codes classified as critical by Safety_ReportError. -/
def criticalErrors : List SafetyError :=
  [.cpuTest, .ramTest, .hardFault, .busFault, .usageFault, .nmi]

/-- Error codes classified as serious by Safety_ReportError. -/
def seriousErrors : List SafetyError :=
  [.flashCrc, .clock, .flowMonitor, .mpuFault]

/-- Error codes classified as warnings by Safety_ReportError. -/
def warningErrors : List SafetyError :=
  [.stackOverflow, .paramInvalid, .runtimeTest]

/-- A concrete world in the SAFE state, reached through the modelled API. -/
def safeWorldExample : CoreWorld :=
  Safety_EnterSafeState 0 .hardFault Safety_EarlyInit

/-- A concrete world in the NORMAL state, reached through the modelled API. -/
def normalWorldExample : CoreWorld :=
  (Safety_SetState .normal (Safety_PeripheralInit Safety_EarlyInit)).2

/-- A concrete world in the DEGRADED state with entry time 0, reached through
the modelled API. -/
def degradedWorldExample : CoreWorld :=
  (Safety_EnterDegraded 0 .flashCrc normalWorldExample).2

/-- The transition table of the amended state-machine-legality claim:
the explicit transitions of safety_core.c plus S → SAFE for every
non-SAFE state S of the original five-state design. -/
def allowedTransitions : List (SafetyState × SafetyState) :=
  [(.init, .startupTest), (.init, .safe),
   (.startupTest, .normal), (.startupTest, .safe),
   (.normal, .degraded), (.normal, .safe),
   (.degraded, .normal), (.degraded, .safe)]

/-! ## WatchdogManager (safety_watchdog.c, safety_config.h) -/

/-- WDG_FEED_PERIOD_MS of safety_config.h. -/
def WDG_FEED_PERIOD_MS : Nat := 500

/-- WDG_TOKEN_TIMEOUT_MS of safety_config.h. -/
def WDG_TOKEN_TIMEOUT_MS : Nat := 800

/-- WDG_TOKEN_ALL of safety_config.h (bits 0,1,2). -/
def WDG_TOKEN_ALL : Nat := 0x07

/-- The struct wdg_status_t of safety_watchdog.h (the WWDG fields are
omitted together with the `#if WWDG_ENABLED` code). -/
structure WdgStatus where
  last_feed_time : Nat
  feed_count : Nat
  tokens_received : Nat
  tokens_required : Nat
  enabled : Bool
  degraded_mode : Bool
deriving DecidableEq, Repr

/-- The module state of safety_watchdog.c: `s_wdg_status`,
`s_token_timestamp[8]` and `s_initialized`. -/
structure WdgWorld where
  status : WdgStatus
  token_timestamp : List Nat
  initialized : Bool
deriving DecidableEq, Repr

/-- Safety_Watchdog_Init of safety_watchdog.c. -/
def Safety_Watchdog_Init : WdgWorld :=
  { status := { last_feed_time := 0, feed_count := 0, tokens_received := 0,
                tokens_required := WDG_TOKEN_ALL, enabled := false,
                degraded_mode := false },
    token_timestamp := List.replicate 8 0,
    initialized := true }

/-- Safety_Watchdog_Start of safety_watchdog.c. -/
def Safety_Watchdog_Start (now : Nat) (w : WdgWorld) :
    SafetyStatus × WdgWorld :=
  if ¬ w.initialized then (.error, w)
  else (.ok, { w with status :=
    { w.status with enabled := true, last_feed_time := now } })

/-- Safety_Watchdog_ReportToken of safety_watchdog.c: OR the token bits into
`tokens_received` and stamp each reported bit with the current time. -/
def Safety_Watchdog_ReportToken (now token : Nat) (w : WdgWorld) : WdgWorld :=
  if ¬ w.initialized then w
  else
    { w with
      status := { w.status with
        tokens_received := w.status.tokens_received ||| token },
      token_timestamp := (List.range 8).map fun i =>
        if token.testBit i then now else w.token_timestamp.getD i 0 }

/-- Safety_Watchdog_CheckAllTokens of safety_watchdog.c: every bit set in
`tokens_required` must be present in `tokens_received` with a timestamp at
most WDG_TOKEN_TIMEOUT_MS old. -/
def Safety_Watchdog_CheckAllTokens (now : Nat) (w : WdgWorld) : Bool :=
  if ¬ w.initialized ∨ w.status.degraded_mode then
    true  -- in degraded mode, always allow feeding
  else
    (List.range 8).all fun i =>
      if w.status.tokens_required.testBit i then
        w.status.tokens_received.testBit i &&
          u32sub now (w.token_timestamp.getD i 0) ≤ WDG_TOKEN_TIMEOUT_MS
      else true

/-- Safety_Watchdog_FeedIWDG of safety_watchdog.c. The hardware refresh
(`HAL_IWDG_Refresh`) is witnessed by the `feed_count` increment that
accompanies it. -/
def Safety_Watchdog_FeedIWDG (now : Nat) (w : WdgWorld) : WdgWorld :=
  if ¬ w.status.enabled then w
  else
    { w with status := { w.status with
        last_feed_time := now,
        feed_count := (w.status.feed_count + 1) % UINT32_MOD,
        tokens_received := 0 } }

/-- Safety_Watchdog_EnterDegraded of safety_watchdog.c. -/
def Safety_Watchdog_EnterDegraded (w : WdgWorld) : WdgWorld :=
  { w with status := { w.status with degraded_mode := true } }

/-- Safety_Watchdog_Process of safety_watchdog.c: the periodic feed decision.
It reports errors into the SafetyCore world, which is threaded through. -/
def Safety_Watchdog_Process (now : Nat) (w : WdgWorld) (core : CoreWorld) :
    WdgWorld × CoreWorld :=
  if ¬ w.status.enabled then (w, core)
  else
    let elapsed := u32sub now w.status.last_feed_time
    if elapsed ≥ WDG_FEED_PERIOD_MS then
      if w.status.degraded_mode then
        -- in degraded mode, feed without token check
        (Safety_Watchdog_FeedIWDG now w, core)
      else if Safety_Watchdog_CheckAllTokens now w then
        -- all tokens verified, safe to feed
        (Safety_Watchdog_FeedIWDG now w, core)
      else
        -- tokens missing: report error, enter degraded, still feed
        let core := Safety_ReportError now .watchdog
          w.status.tokens_received w.status.tokens_required core
        let w := Safety_Watchdog_EnterDegraded w
        (Safety_Watchdog_FeedIWDG now w, core)
    else (w, core)

/-! ## FlowMonitor (safety_flow.c, safety_config.h, shared_config.h) -/

/-- FLOW_SIGNATURE_SEED of safety_config.h. -/
def FLOW_SIGNATURE_SEED : Nat := 0x5A5A5A5A

/-- The macro FLOW_UPDATE_SIGNATURE of safety_flow.c:
`((sig << 1) | (sig >> 31)) ^ (cp * 0x9E3779B9)` on uint32. -/
def FLOW_UPDATE_SIGNATURE (sig cp : Nat) : Nat :=
  (((sig <<< 1) &&& 0xFFFFFFFF) ||| (sig >>> 31)) ^^^
    ((cp * 0x9E3779B9) % UINT32_MOD)

/-- The struct flow_context_t of safety_flow.h. -/
structure FlowCtx where
  signature : Nat
  expected_signature : Nat
  checkpoint_count : Nat
  last_checkpoint : Nat
  last_checkpoint_time : Nat
  sequence_complete : Bool
  error_detected : Bool
deriving DecidableEq, Repr

/-- Safety_Flow_Init of safety_flow.c. -/
def Safety_Flow_Init : FlowCtx :=
  { signature := FLOW_SIGNATURE_SEED, expected_signature := 0,
    checkpoint_count := 0, last_checkpoint := 0, last_checkpoint_time := 0,
    sequence_complete := false, error_detected := false }

/-- Safety_Flow_Checkpoint of safety_flow.c. -/
def Safety_Flow_Checkpoint (now cp : Nat) (c : FlowCtx) : FlowCtx :=
  let c := { c with
    signature := FLOW_UPDATE_SIGNATURE c.signature cp,
    last_checkpoint := cp,
    last_checkpoint_time := now,
    checkpoint_count := (c.checkpoint_count + 1) % UINT32_MOD }
  if c.expected_signature ≠ 0 ∧ c.signature = c.expected_signature then
    { c with sequence_complete := true }
  else c

/-- Safety_Flow_Reset of safety_flow.c (keeps `expected_signature` and
`last_checkpoint_time`, like the C code). -/
def Safety_Flow_Reset (c : FlowCtx) : FlowCtx :=
  { c with signature := FLOW_SIGNATURE_SEED, checkpoint_count := 0,
           last_checkpoint := 0, sequence_complete := false,
           error_detected := false }

/-- Safety_Flow_Verify of safety_flow.c. -/
def Safety_Flow_Verify (c : FlowCtx) : Bool × FlowCtx :=
  if c.expected_signature ≠ 0 ∧ c.signature ≠ c.expected_signature then
    (false, { c with error_detected := true })
  else if c.checkpoint_count = 0 then
    (false, { c with error_detected := true })
  else
    (true, { c with checkpoint_count := 0 })

/-- A sequence of checkpoint calls (all at the same tick, which does not
influence the signature). -/
def flowRun (now : Nat) (cps : List Nat) (c : FlowCtx) : FlowCtx :=
  cps.foldl (fun c cp => Safety_Flow_Checkpoint now cp c) c

/-- Modelled from the spec: an independent reference implementation of the
signature mixing function, `sig' = rotate_left(sig, 1) XOR
(checkpoint * 0x9E3779B9)` on 32-bit words, written with addition and
modulus instead of the C macro's masked shift/or. -/
def flowRefRotl1 (x : Nat) : Nat := ((x <<< 1) + (x >>> 31)) % UINT32_MOD

/-- Modelled from the spec: one reference mixing step. -/
def flowRefMix (sig cp : Nat) : Nat :=
  flowRefRotl1 sig ^^^ ((cp * 0x9E3779B9) % UINT32_MOD)

/-- Modelled from the spec: the reference signature of a checkpoint sequence
folded from a seed. -/
def flowRefSignature (seed : Nat) (cps : List Nat) : Nat :=
  cps.foldl flowRefMix seed

/-! ## Monitor thread: degraded-mode timeout (safety_monitor.c step 6) -/

/-- SAFETY_MONITOR_PERIOD_MS of shared_config.h. -/
def SAFETY_MONITOR_PERIOD_MS : Nat := 100

/-- DEGRADED_MODE_TIMEOUT_MS of safety_config.h. -/
def DEGRADED_MODE_TIMEOUT_MS : Nat := 30000

/-- Step 6 of the Safety_Monitor_ThreadEntry loop of safety_monitor.c
(DEGRADED_MODE_ENABLED = 1): if the state is DEGRADED and the time elapsed
since `degraded_enter_time` exceeds DEGRADED_MODE_TIMEOUT_MS, force the safe
state. -/
def Safety_Monitor_DegradedCheck (now : Nat) (w : CoreWorld) : CoreWorld :=
  if w.ctx.state = .degraded then
    if u32sub now w.ctx.degraded_enter_time > DEGRADED_MODE_TIMEOUT_MS then
      Safety_EnterSafeState now .internal w
    else w
  else w

/-- The monitor loop restricted to the degraded-timeout step, for a system
that entered DEGRADED at t = 0 and never transitions back to NORMAL (no
other step of the loop changes the safety state in that scenario): cycle
`n` runs at `now = SAFETY_MONITOR_PERIOD_MS * n`. -/
def degradedMonitorRun (w0 : CoreWorld) : Nat → CoreWorld
  | 0 => w0
  | n + 1 =>
      Safety_Monitor_DegradedCheck (SAFETY_MONITOR_PERIOD_MS * (n + 1))
        (degradedMonitorRun w0 n)

/-! ## CRC32 primitive

The CRC computations of safety_selftest.c and safety_params.c run on the
STM32F4 hardware CRC unit (`HAL_CRC_Calculate` / `HAL_CRC_Accumulate` /
`CRC->DR`), whose silicon is not part of this repository. -/

/-- CRC32_POLYNOMIAL of safety_config.h. -/
def CRC32_POLYNOMIAL : Nat := 0x04C11DB7

/-- CRC32_INIT_VALUE of safety_config.h. -/
def CRC32_INIT_VALUE : Nat := 0xFFFFFFFF

/-- Modelled from the spec: one shift step of the STM32F4 hardware CRC unit
(missing from src/; safety_config.h documents the polynomial 0x04C11DB7 and
initial value 0xFFFFFFFF, and boot_crc.c documents the word-wise usage):
shift left one bit and fold in the polynomial when the top bit was set. -/
def crc32Step (c : Nat) : Nat :=
  if c.testBit 31 then ((c <<< 1) &&& 0xFFFFFFFF) ^^^ CRC32_POLYNOMIAL
  else (c <<< 1) &&& 0xFFFFFFFF

/-- Modelled from the spec: absorbing one 32-bit word into the CRC unit
(write to `CRC->DR` / one `HAL_CRC_Accumulate` step): XOR the word into the
running value, then 32 polynomial shift steps. -/
def crc32Word (c w : Nat) : Nat := crc32Step^[32] ((c ^^^ w) &&& 0xFFFFFFFF)

/-- Modelled from the spec: the CRC of a word sequence from a starting value
(the unit is seeded with CRC32_INIT_VALUE by a DR reset). -/
def crcWords (c : Nat) (ws : List Nat) : Nat := ws.foldl crc32Word c

/-! ## SelfTestEngine: flash CRC (safety_selftest.c) -/

/-- SELFTEST_FLASH_CRC_BLOCK_SIZE of safety_config.h (bytes). -/
def SELFTEST_FLASH_CRC_BLOCK_SIZE : Nat := 4096

/-- The enum selftest_mode_t of safety_selftest.h. -/
inductive SelftestMode where
  | startup | runtime
deriving DecidableEq, Repr

/-- The enum selftest_result_t of safety_selftest.h. -/
inductive SelftestResult where
  | pass        -- SELFTEST_PASS = 0x00
  | failCpu     -- SELFTEST_FAIL_CPU = 0x01
  | failRam     -- SELFTEST_FAIL_RAM = 0x02
  | failFlash   -- SELFTEST_FAIL_FLASH = 0x03
  | failClock   -- SELFTEST_FAIL_CLOCK = 0x04
  | failCrc     -- SELFTEST_FAIL_CRC = 0x05
  | inProgress  -- SELFTEST_IN_PROGRESS = 0xFE
  | notRun      -- SELFTEST_NOT_RUN = 0xFF
deriving DecidableEq, Repr

/-- The struct flash_crc_context_t of safety_selftest.h. -/
structure FlashCrcCtx where
  current_offset : Nat
  accumulated_crc : Nat
  total_size : Nat
  block_size : Nat
  in_progress : Bool
  completed : Bool
deriving DecidableEq, Repr

/-- The application flash environment read by safety_selftest.c: the words
of the application image below APP_CRC_ADDR (so `4 * appWords.length`
corresponds to APP_FLASH_SIZE - 4), and the expected CRC stored at
APP_CRC_ADDR (`s_expected_app_crc`). -/
structure FlashEnv where
  appWords : List Nat
  storedCrc : Nat
deriving DecidableEq, Repr

/-- Safety_SelfTest_Init of safety_selftest.c: the flash-CRC context with
`total_size = APP_FLASH_SIZE - 4` (the byte size of the image words) and
`block_size = SELFTEST_FLASH_CRC_BLOCK_SIZE`. -/
def Safety_SelfTest_Init (env : FlashEnv) : FlashCrcCtx :=
  { current_offset := 0, accumulated_crc := CRC32_INIT_VALUE,
    total_size := 4 * env.appWords.length,
    block_size := SELFTEST_FLASH_CRC_BLOCK_SIZE,
    in_progress := false, completed := false }

/-- Safety_SelfTest_ResetFlashCRC of safety_selftest.c. -/
def Safety_SelfTest_ResetFlashCRC (ctx : FlashCrcCtx) : FlashCrcCtx :=
  { ctx with current_offset := 0, accumulated_crc := CRC32_INIT_VALUE,
             in_progress := false, completed := false }

/-- Safety_SelfTest_FlashCRC of safety_selftest.c: in startup mode a full
single-pass CRC over the image compared with the stored CRC; in runtime mode
reset the incremental context and mark it in progress. -/
def Safety_SelfTest_FlashCRC (mode : SelftestMode) (now : Nat)
    (env : FlashEnv) (ctx : FlashCrcCtx) (core : CoreWorld) :
    SelftestResult × FlashCrcCtx × CoreWorld :=
  match mode with
  | .startup =>
      let calc_crc := crcWords CRC32_INIT_VALUE env.appWords
      if calc_crc ≠ env.storedCrc then
        (.failFlash, ctx,
         Safety_ReportError now .flashCrc calc_crc env.storedCrc core)
      else
        (.pass, ctx, core)
  | .runtime =>
      let ctx := Safety_SelfTest_ResetFlashCRC ctx
      (.inProgress, { ctx with in_progress := true }, core)

/-- Safety_SelfTest_FlashCRC_Continue of safety_selftest.c: process at most
one block per call; each block's CRC is computed from a fresh DR reset
(`HAL_CRC_Calculate`) and XOR-folded into `accumulated_crc`; when the offset
reaches `total_size`, compare against the stored CRC. -/
def Safety_SelfTest_FlashCRC_Continue (now : Nat) (env : FlashEnv)
    (ctx : FlashCrcCtx) (core : CoreWorld) :
    SelftestResult × FlashCrcCtx × CoreWorld :=
  if ¬ ctx.in_progress then (.notRun, ctx, core)
  else
    let remaining := ctx.total_size - ctx.current_offset
    let block_size :=
      if remaining > ctx.block_size then ctx.block_size else remaining
    if block_size = 0 then
      let ctx := { ctx with in_progress := false, completed := true }
      if ctx.accumulated_crc ≠ env.storedCrc then
        (.failFlash, ctx,
         Safety_ReportError now .flashCrc ctx.accumulated_crc env.storedCrc
           core)
      else
        (.pass, ctx, core)
    else
      let data := (env.appWords.drop (ctx.current_offset / 4)).take
        (block_size / 4)
      let block_crc := crcWords CRC32_INIT_VALUE data
      let ctx := { ctx with
        accumulated_crc := ctx.accumulated_crc ^^^ block_crc,
        current_offset := ctx.current_offset + block_size }
      (.inProgress, ctx, core)

/-- The do-while loop of safety_monitor.c (step 5): call Continue until the
result is no longer SELFTEST_IN_PROGRESS; `fuel` bounds the iterations. -/
def flashCrcContinueRun (now : Nat) (env : FlashEnv) :
    Nat → FlashCrcCtx → CoreWorld → SelftestResult × FlashCrcCtx × CoreWorld
  | 0, ctx, core => (.inProgress, ctx, core)
  | fuel + 1, ctx, core =>
      match Safety_SelfTest_FlashCRC_Continue now env ctx core with
      | (.inProgress, ctx, core) => flashCrcContinueRun now env fuel ctx core
      | r => r

/-- A concrete flash environment: an application image of a single zero
word whose stored CRC matches the image (0xC704DD7B is its CRC-32, proved
in crcWords_flashEnvExample), so that the startup check passes. -/
def flashEnvExample : FlashEnv :=
  { appWords := [0], storedCrc := 0xC704DD7B }

/-! ## ParamsValidator (safety_params.c, shared_config.h)

The `float` fields of safety_params_t are modelled by their IEEE-754
binary32 bit patterns (`Nat` below 2^32): the redundancy check of the C code
operates on the bit patterns directly, and the range checks translate to the
standard sign-magnitude integer comparison, which coincides with the C
`float` comparison on the non-NaN, non-infinite values admitted by the
explicit `isnan`/`isinf` rejection that precedes them. -/

/-- The enum params_result_t of safety_params.h. -/
inductive ParamsResult where
  | valid          -- PARAMS_VALID = 0x00
  | errMagic       -- PARAMS_ERR_MAGIC = 0x01
  | errVersion     -- PARAMS_ERR_VERSION = 0x02
  | errSize        -- PARAMS_ERR_SIZE = 0x03
  | errCrc         -- PARAMS_ERR_CRC = 0x04
  | errHallRange   -- PARAMS_ERR_HALL_RANGE = 0x05
  | errAdcRange    -- PARAMS_ERR_ADC_RANGE = 0x06
  | errThreshold   -- PARAMS_ERR_THRESHOLD = 0x07
  | errRedundancy  -- PARAMS_ERR_REDUNDANCY = 0x08
  | errNullPtr     -- PARAMS_ERR_NULL_PTR = 0x09
  | errFlashRead   -- PARAMS_ERR_FLASH_READ = 0x0A
deriving DecidableEq, Repr

/-- Numeric codes of params_result_t (passed to Safety_ReportError). -/
def ParamsResult.code : ParamsResult → Nat
  | .valid => 0x00 | .errMagic => 0x01 | .errVersion => 0x02
  | .errSize => 0x03 | .errCrc => 0x04 | .errHallRange => 0x05
  | .errAdcRange => 0x06 | .errThreshold => 0x07 | .errRedundancy => 0x08
  | .errNullPtr => 0x09 | .errFlashRead => 0x0A

/-- SAFETY_PARAMS_MAGIC of shared_config.h. -/
def SAFETY_PARAMS_MAGIC : Nat := 0xCA11B000

/-- SAFETY_PARAMS_VERSION of shared_config.h. -/
def SAFETY_PARAMS_VERSION : Nat := 0x0100

/-- sizeof(safety_params_t): 8-byte header + 48 bytes of Hall calibration +
64 bytes of ADC calibration + 16 bytes of thresholds + 28 reserved bytes +
4-byte CRC (the struct is packed). -/
def SAFETY_PARAMS_SIZEOF : Nat := 168

/-- The struct safety_params_t of shared_config.h; float arrays are lists of
binary32 bit patterns. -/
structure SafetyParams where
  magic : Nat
  version : Nat
  size : Nat
  hall_offset : List Nat
  hall_gain : List Nat
  hall_offset_inv : List Nat
  hall_gain_inv : List Nat
  adc_gain : List Nat
  adc_offset : List Nat
  safety_threshold : List Nat
  reserved : List Nat
  crc32 : Nat
deriving DecidableEq, Repr

/-- Well-formedness of a safety_params_t value: the array lengths fixed by
the struct layout. -/
def paramsWf (P : SafetyParams) : Prop :=
  P.hall_offset.length = 3 ∧ P.hall_gain.length = 3 ∧
  P.hall_offset_inv.length = 3 ∧ P.hall_gain_inv.length = 3 ∧
  P.adc_gain.length = 8 ∧ P.adc_offset.length = 8 ∧
  P.safety_threshold.length = 4 ∧ P.reserved.length = 7

/-- The 41 little-endian words of a safety_params_t value that precede its
trailing `crc32` field (164 bytes), exactly the bytes covered by
`Safety_Params_CalculateCRC(params, sizeof(safety_params_t) - 4)`. -/
def paramsWords (P : SafetyParams) : List Nat :=
  P.magic :: (P.version ||| (P.size <<< 16)) ::
    (P.hall_offset ++ P.hall_gain ++ P.hall_offset_inv ++ P.hall_gain_inv ++
     P.adc_gain ++ P.adc_offset ++ P.safety_threshold ++ P.reserved)

/-- Safety_Params_CalculateCRC of safety_params.c applied to a
safety_params_t with size `sizeof(safety_params_t) - 4`: a DR reset
(seeding CRC32_INIT_VALUE) followed by word-wise accumulation; 164 bytes
are 41 whole words, so the remainder branch is not taken. -/
def Safety_Params_CalculateCRC (P : SafetyParams) : Nat :=
  crcWords CRC32_INIT_VALUE (paramsWords P)

/-- Sign-magnitude integer key of a binary32 bit pattern; for non-NaN
patterns, IEEE-754 ordering (and hence the C `float` comparison) coincides
with the ordering of this key. Both zeros map to 0. -/
def f32key (b : Nat) : Int :=
  if b < 0x80000000 then (b : Int) else -((b - 0x80000000 : Nat) : Int)

/-- Exponent field of a binary32 bit pattern. -/
def f32exp (b : Nat) : Nat := (b >>> 23) &&& 0xFF

/-- Fraction field of a binary32 bit pattern. -/
def f32frac (b : Nat) : Nat := b &&& 0x7FFFFF

/-- The C isnan for a binary32 bit pattern. -/
def f32isNan (b : Nat) : Bool := f32exp b = 0xFF ∧ f32frac b ≠ 0

/-- The C isinf for a binary32 bit pattern. -/
def f32isInf (b : Nat) : Bool := f32exp b = 0xFF ∧ f32frac b = 0

/-- The C `a <= b` on finite binary32 bit patterns. -/
def f32le (a b : Nat) : Bool := f32key a ≤ f32key b

/-- HALL_OFFSET_MIN of shared_config.h: -1000.0f as a binary32 pattern. -/
def HALL_OFFSET_MIN : Nat := 0xC47A0000

/-- HALL_OFFSET_MAX of shared_config.h: 1000.0f as a binary32 pattern. -/
def HALL_OFFSET_MAX : Nat := 0x447A0000

/-- HALL_GAIN_MIN of shared_config.h: 0.5f as a binary32 pattern. -/
def HALL_GAIN_MIN : Nat := 0x3F000000

/-- HALL_GAIN_MAX of shared_config.h: 2.0f as a binary32 pattern. -/
def HALL_GAIN_MAX : Nat := 0x40000000

/-- ADC_GAIN_MIN of shared_config.h: 0.8f as a binary32 pattern. -/
def ADC_GAIN_MIN : Nat := 0x3F4CCCCD

/-- ADC_GAIN_MAX of shared_config.h: 1.2f as a binary32 pattern. -/
def ADC_GAIN_MAX : Nat := 0x3F99999A

/-- ADC_OFFSET_MIN of shared_config.h: -500.0f as a binary32 pattern. -/
def ADC_OFFSET_MIN : Nat := 0xC3FA0000

/-- ADC_OFFSET_MAX of shared_config.h: 500.0f as a binary32 pattern. -/
def ADC_OFFSET_MAX : Nat := 0x43FA0000

/-- SAFETY_THRESHOLD_MIN of shared_config.h: 0.0f as a binary32 pattern. -/
def SAFETY_THRESHOLD_MIN : Nat := 0x00000000

/-- SAFETY_THRESHOLD_MAX of shared_config.h: 10000.0f as a binary32
pattern. -/
def SAFETY_THRESHOLD_MAX : Nat := 0x461C4000

/-- Params_FloatInRange of safety_params.c: explicit NaN/Inf rejection, then
`value >= min && value <= max`. -/
def Params_FloatInRange (v lo hi : Nat) : Bool :=
  if f32isNan v || f32isInf v then false
  else f32le lo v && f32le v hi

/-- Params_CheckFloatInverted of safety_params.c with IS_INVERTED_32 of
shared_config.h: `val == ~inv` on the 32-bit patterns. -/
def Params_CheckFloatInverted (val inv : Nat) : Bool :=
  val = inv ^^^ 0xFFFFFFFF

/-- Params_ValidateHeader of safety_params.c. The version comparison in the
C code emits only a diagnostic warning and cannot fail, so only magic and
size decide the result. -/
def Params_ValidateHeader (P : SafetyParams) : ParamsResult :=
  if P.magic ≠ SAFETY_PARAMS_MAGIC then .errMagic
  else if P.size ≠ SAFETY_PARAMS_SIZEOF then .errSize
  else .valid

/-- Params_ValidateCRC of safety_params.c. -/
def Params_ValidateCRC (P : SafetyParams) : ParamsResult :=
  if Safety_Params_CalculateCRC P ≠ P.crc32 then .errCrc else .valid

/-- Params_ValidateHallParams of safety_params.c. -/
def Params_ValidateHallParams (P : SafetyParams) : ParamsResult :=
  if (List.range 3).all (fun i =>
      Params_FloatInRange (P.hall_offset.getD i 0)
        HALL_OFFSET_MIN HALL_OFFSET_MAX &&
      Params_FloatInRange (P.hall_gain.getD i 0)
        HALL_GAIN_MIN HALL_GAIN_MAX) then .valid
  else .errHallRange

/-- Params_ValidateAdcParams of safety_params.c. -/
def Params_ValidateAdcParams (P : SafetyParams) : ParamsResult :=
  if (List.range 8).all (fun i =>
      Params_FloatInRange (P.adc_gain.getD i 0)
        ADC_GAIN_MIN ADC_GAIN_MAX &&
      Params_FloatInRange (P.adc_offset.getD i 0)
        ADC_OFFSET_MIN ADC_OFFSET_MAX) then .valid
  else .errAdcRange

/-- Params_ValidateThresholds of safety_params.c. -/
def Params_ValidateThresholds (P : SafetyParams) : ParamsResult :=
  if (List.range 4).all (fun i =>
      Params_FloatInRange (P.safety_threshold.getD i 0)
        SAFETY_THRESHOLD_MIN SAFETY_THRESHOLD_MAX) then .valid
  else .errThreshold

/-- Params_ValidateRedundancy of safety_params.c: each inverted Hall copy
must be the bitwise NOT of its primary. -/
def Params_ValidateRedundancy (P : SafetyParams) : ParamsResult :=
  if (List.range 3).all (fun i =>
      Params_CheckFloatInverted (P.hall_offset.getD i 0)
        (P.hall_offset_inv.getD i 0) &&
      Params_CheckFloatInverted (P.hall_gain.getD i 0)
        (P.hall_gain_inv.getD i 0)) then .valid
  else .errRedundancy

/-- The module state of safety_params.c relevant to the claims:
`s_params_valid` and `s_cached_params` (the statistics structure
`s_params_stats` only counts calls and is omitted). -/
structure ParamsWorld where
  valid : Bool
  cached : SafetyParams
deriving DecidableEq, Repr

/-- The validation_failed exit of Safety_Params_Validate: clear the valid
flag and report SAFETY_ERR_PARAM_INVALID with the result code to the safety
core. -/
def paramsValidationFailed (r : ParamsResult) (now : Nat) (pw : ParamsWorld)
    (core : CoreWorld) : ParamsResult × ParamsWorld × CoreWorld :=
  (r, { pw with valid := false },
   Safety_ReportError now .paramInvalid r.code 0 core)

/-- Safety_Params_Validate of safety_params.c: the six validation steps in
order, short-circuiting at the first failure; on success the record is
cached and marked valid. The NULL-pointer guard is inapplicable because the
record is passed by value. -/
def Safety_Params_Validate (P : SafetyParams) (now : Nat) (pw : ParamsWorld)
    (core : CoreWorld) : ParamsResult × ParamsWorld × CoreWorld :=
  let step1 := Params_ValidateHeader P
  if step1 ≠ .valid then paramsValidationFailed step1 now pw core
  else
    let step2 := Params_ValidateCRC P
    if step2 ≠ .valid then paramsValidationFailed step2 now pw core
    else
      let step3 := Params_ValidateHallParams P
      if step3 ≠ .valid then paramsValidationFailed step3 now pw core
      else
        let step4 := Params_ValidateAdcParams P
        if step4 ≠ .valid then paramsValidationFailed step4 now pw core
        else
          let step5 := Params_ValidateThresholds P
          if step5 ≠ .valid then paramsValidationFailed step5 now pw core
          else
            let step6 := Params_ValidateRedundancy P
            if step6 ≠ .valid then paramsValidationFailed step6 now pw core
            else
              (.valid, { valid := true, cached := P }, core)

/-- Safety_Params_Get of safety_params.c: the cached record when valid,
NULL (here `none`) otherwise. -/
def Safety_Params_Get (pw : ParamsWorld) : Option SafetyParams :=
  if pw.valid then some pw.cached else none

/-- Flip bit `b` of element `i` of a float array (one-bit storage
corruption of its binary32 pattern). -/
def flipBitAt (xs : List Nat) (i b : Nat) : List Nat :=
  xs.set i (xs.getD i 0 ^^^ (1 <<< b))

/-- One-bit corruption of a Hall pair element: `arm` 0/1 pick the primary
offset/gain arrays, `arm` 2/3 the inverted copies. -/
def flipHallBit (arm i b : Nat) (P : SafetyParams) : SafetyParams :=
  match arm with
  | 0 => { P with hall_offset := flipBitAt P.hall_offset i b }
  | 1 => { P with hall_gain := flipBitAt P.hall_gain i b }
  | 2 => { P with hall_offset_inv := flipBitAt P.hall_offset_inv i b }
  | _ => { P with hall_gain_inv := flipBitAt P.hall_gain_inv i b }

/-- A concrete safety_params_t record before its CRC is filled in: correct
magic/version/size, Hall offsets 0.0f with gains 1.0f, matching inverted
copies, ADC gains 1.0f, ADC offsets 0.0f, thresholds 0.0f. -/
def paramsExampleBase : SafetyParams :=
  { magic := SAFETY_PARAMS_MAGIC, version := SAFETY_PARAMS_VERSION,
    size := SAFETY_PARAMS_SIZEOF,
    hall_offset := List.replicate 3 0x00000000,
    hall_gain := List.replicate 3 0x3F800000,
    hall_offset_inv := List.replicate 3 0xFFFFFFFF,
    hall_gain_inv := List.replicate 3 0xC07FFFFF,
    adc_gain := List.replicate 8 0x3F800000,
    adc_offset := List.replicate 8 0x00000000,
    safety_threshold := List.replicate 4 0x00000000,
    reserved := List.replicate 7 0,
    crc32 := 0 }

/-- The concrete record with its stored CRC consistent with its contents
(the CRC-32 of its 41 words, proved in Safety_Params_CalculateCRC_paramsExample),
so that the full validation passes. -/
def paramsExample : SafetyParams :=
  { paramsExampleBase with crc32 := 0x19DBCB85 }

/-- An empty params-module state. -/
def paramsWorldExample : ParamsWorld :=
  { valid := false, cached := paramsExampleBase }

/-! ## Further concrete scenarios used by witnesses -/

/-- Repeated critical reports: `n` calls of Safety_ReportError with the same
error code starting from the freshly initialised core world. -/
def reportCriticalRun (e : SafetyError) : Nat → CoreWorld
  | 0 => Safety_EarlyInit
  | n + 1 => Safety_ReportError 0 e 0 0 (reportCriticalRun e n)

/-- A started watchdog world in which all three required tokens were
reported at t = 0. -/
def wdgWorldExample : WdgWorld :=
  Safety_Watchdog_ReportToken 0 0x07
    (Safety_Watchdog_Start 0 Safety_Watchdog_Init).2

/-- A started watchdog world in which only tokens 0x01 and 0x02 were
reported, at t = 0. -/
def wdgMissingExample : WdgWorld :=
  Safety_Watchdog_ReportToken 0 0x03
    (Safety_Watchdog_Start 0 Safety_Watchdog_Init).2

/-! ## Helper lemmas on the SafetyCore model -/

theorem Safety_LogError_ctx (now : Nat) (e : SafetyError) (p1 p2 : Nat)
    (w : CoreWorld) : (Safety_LogError now e p1 p2 w).ctx = w.ctx := rfl

theorem Safety_CallErrorCallback_ctx (e : SafetyError) (w : CoreWorld) :
    (Safety_CallErrorCallback e w).ctx = w.ctx := by
  unfold Safety_CallErrorCallback; split <;> rfl

theorem Safety_CallStateCallback_ctx (o n : SafetyState) (w : CoreWorld) :
    (Safety_CallStateCallback o n w).ctx = w.ctx := by
  unfold Safety_CallStateCallback; split <;> rfl

theorem Safety_EnterSafeState_ctx (now : Nat) (e : SafetyError)
    (w : CoreWorld) :
    (Safety_EnterSafeState now e w).ctx =
      { w.ctx with state := .safe, last_error := e,
                   error_count := (w.ctx.error_count + 1) % UINT32_MOD } := by
  unfold Safety_EnterSafeState
  rw [Safety_CallErrorCallback_ctx, Safety_CallStateCallback_ctx]
  rfl

theorem Safety_EnterDegraded_ctx_of_normal (now : Nat) (e : SafetyError)
    (w : CoreWorld) (h : w.ctx.state = .normal) :
    (Safety_EnterDegraded now e w).2.ctx =
      { w.ctx with state := .degraded, degraded_enter_time := now,
                   last_error := e } := by
  unfold Safety_EnterDegraded
  simp [h, Safety_CallErrorCallback_ctx, Safety_CallStateCallback_ctx]

theorem Safety_EnterSafeState_state (now : Nat) (e : SafetyError)
    (w : CoreWorld) : (Safety_EnterSafeState now e w).ctx.state = .safe := by
  rw [Safety_EnterSafeState_ctx]

theorem Safety_EnterDegraded_state (now : Nat) (e : SafetyError)
    (w : CoreWorld) :
    (Safety_EnterDegraded now e w).2.ctx.state =
      if w.ctx.state = .normal ∨ w.ctx.state = .startupTest then .degraded
      else w.ctx.state := by
  unfold Safety_EnterDegraded
  split <;> rename_i h <;>
    simp [h, Safety_CallErrorCallback_ctx, Safety_CallStateCallback_ctx]

theorem Safety_SetState_from_safe (target : SafetyState) (w : CoreWorld)
    (h : w.ctx.state = .safe) : Safety_SetState target w = (.error, w) := by
  unfold Safety_SetState
  simp only [h]

/-- Claim C1: `Safe` is absorbing — `Safety_EnterSafeState` puts the state
machine in `Safe` from every current state, and once the state is `Safe` no
`Safety_SetState` call succeeds for any target (including `Safe` itself);
the call fails with SAFETY_ERROR and leaves the world unchanged, so only a
hardware reset leaves `Safe`. -/
theorem C1_safe_absorbing :
    (∀ (w : CoreWorld) (now : Nat) (e : SafetyError),
        (Safety_EnterSafeState now e w).ctx.state = .safe) ∧
    (∀ (w : CoreWorld) (target : SafetyState), w.ctx.state = .safe →
        (Safety_SetState target w).1 ≠ .ok ∧
        Safety_SetState target w = (.error, w)) := by
  constructor
  · intro w now e
    rw [Safety_EnterSafeState_ctx]
  · intro w target h
    rw [Safety_SetState_from_safe target w h]
    exact ⟨by simp, rfl⟩

/-- Witness for C1 at concrete inputs: entering the safe state from the
freshly initialised world yields `Safe`, and from there even the request to
re-enter `Safe` itself is rejected with SAFETY_ERROR. -/
theorem C1_witness :
    (Safety_EnterSafeState 0 .hardFault Safety_EarlyInit).ctx.state =
      .safe ∧
    ((Safety_SetState .safe safeWorldExample).1 ≠ .ok ∧
      Safety_SetState .safe safeWorldExample = (.error, safeWorldExample)) :=
  ⟨C1_safe_absorbing.1 Safety_EarlyInit 0 .hardFault,
   C1_safe_absorbing.2 safeWorldExample .safe (by decide)⟩

/-- Counterexample to claim C2 as stated: with the current state `Safe`, the
pair (Safe, Normal) is outside the allowed transition table, yet
Safety_SetState returns SAFETY_ERROR (0x01), not SAFETY_INVALID_PARAM
(0x04); likewise (Safe, Safe) would be covered by the claimed
"any state → Safe" row but is rejected with SAFETY_ERROR as well. -/
theorem C2_counterexample :
    Safety_SetState .normal safeWorldExample = (.error, safeWorldExample) ∧
    Safety_SetState .safe safeWorldExample ≠
      (.ok, (Safety_SetState .safe safeWorldExample).2) ∧
    SafetyStatus.error ≠ SafetyStatus.invalidParam := by decide

/-- Claim C2 (amended): for every pair in the allowed transition table —
Init→StartupTest, StartupTest→Normal, Normal→Degraded, Degraded→Normal, and
S→Safe for every non-Safe state S of the five-state design —
Safety_SetState succeeds, commits the requested state, and then invokes the
registered state-change callback (if any) with (old, new) after committing
(the recorded observed state equals the new state); for every pair outside
the table the call fails and leaves the world unchanged, with result
SAFETY_INVALID_PARAM when the current state is not Safe and SAFETY_ERROR
when it is Safe (so from Safe even a →Safe request fails). -/
theorem C2_setstate_legality :
    ∀ (w : CoreWorld) (target : SafetyState),
      ((w.ctx.state, target) ∈ allowedTransitions →
        (Safety_SetState target w).1 = .ok ∧
        (Safety_SetState target w).2.ctx = { w.ctx with state := target } ∧
        (Safety_SetState target w).2.events =
          w.events ++
            (if w.ctx.state_cb_registered then
              [CoreEvent.stateCb target w.ctx.state target]
            else [])) ∧
      ((w.ctx.state, target) ∉ allowedTransitions → w.ctx.state ≠ .safe →
        Safety_SetState target w = (.invalidParam, w)) ∧
      (w.ctx.state = .safe → Safety_SetState target w = (.error, w)) := by
  intro w target
  refine ⟨?_, ?_, fun h => Safety_SetState_from_safe target w h⟩
  · intro hmem
    cases hst : w.ctx.state <;> cases target <;>
      simp_all [allowedTransitions, Safety_SetState,
        Safety_CallStateCallback] <;>
      split <;> simp_all
  · intro hmem hsafe
    cases hst : w.ctx.state <;> cases target <;>
      simp_all [allowedTransitions, Safety_SetState]

/-- Witness for C2 (amended) at concrete inputs: Normal→Degraded commits and
records the callback after the commit; Safe→Normal fails with SAFETY_ERROR. -/
theorem C2_witness :
    ((Safety_SetState .degraded normalWorldExample).1 = .ok ∧
     (Safety_SetState .degraded normalWorldExample).2.ctx =
       { normalWorldExample.ctx with state := .degraded } ∧
     (Safety_SetState .degraded normalWorldExample).2.events =
       normalWorldExample.events ++
         (if normalWorldExample.ctx.state_cb_registered then
           [CoreEvent.stateCb .degraded normalWorldExample.ctx.state
              .degraded]
         else [])) ∧
    Safety_SetState .normal safeWorldExample = (.error, safeWorldExample) :=
  ⟨(C2_setstate_legality normalWorldExample .degraded).1 (by decide),
   (C2_setstate_legality safeWorldExample .normal).2.2 (by decide)⟩

/-- Claim C3: Safety_ReportError classifies every error by a fixed severity:
critical errors (CPU test, RAM test, hard fault, bus fault, usage fault,
NMI) force `Safe` from every state; serious errors (Flash CRC, clock, flow
monitor, MPU fault) take `Normal` to `Degraded`, escalate to `Safe` when the
state is already `Degraded`, and force no transition from any other state;
warning errors (stack overflow, parameter invalid, runtime test) are logged,
counted and callback-notified but leave the state unchanged. -/
theorem C3_severity_classification :
    (∀ e ∈ criticalErrors, ∀ (w : CoreWorld) (now p1 p2 : Nat),
        (Safety_ReportError now e p1 p2 w).ctx.state = .safe) ∧
    (∀ e ∈ seriousErrors, ∀ (w : CoreWorld) (now p1 p2 : Nat),
        (w.ctx.state = .normal →
          (Safety_ReportError now e p1 p2 w).ctx.state = .degraded) ∧
        (w.ctx.state = .degraded →
          (Safety_ReportError now e p1 p2 w).ctx.state = .safe) ∧
        (w.ctx.state ≠ .normal → w.ctx.state ≠ .degraded →
          (Safety_ReportError now e p1 p2 w).ctx.state = w.ctx.state)) ∧
    (∀ e ∈ warningErrors, ∀ (w : CoreWorld) (now p1 p2 : Nat),
        (Safety_ReportError now e p1 p2 w).ctx.state = w.ctx.state ∧
        (Safety_ReportError now e p1 p2 w).ctx.last_error = e ∧
        (Safety_ReportError now e p1 p2 w).ctx.error_count =
          (w.ctx.error_count + 1) % UINT32_MOD ∧
        (w.ctx.error_cb_registered = true →
          (Safety_ReportError now e p1 p2 w).events =
            w.events ++ [.errorCb e])) := by
  refine ⟨?_, ?_, ?_⟩
  · intro e he w now p1 p2
    fin_cases he <;>
      simp [Safety_ReportError, Safety_EnterSafeState_state]
  · intro e he w now p1 p2
    refine ⟨fun h => ?_, fun h => ?_, fun h1 h2 => ?_⟩
    · fin_cases he <;>
        simp [Safety_ReportError, Safety_EnterDegraded_state,
          Safety_LogError_ctx, h]
    · fin_cases he <;>
        simp [Safety_ReportError, Safety_EnterSafeState_state,
          Safety_LogError_ctx, h]
    · fin_cases he <;>
        simp [Safety_ReportError, Safety_LogError_ctx, h1, h2]
  · intro e he w now p1 p2
    refine ⟨?_, ?_, ?_, fun hreg => ?_⟩
    · fin_cases he <;>
        simp [Safety_ReportError, Safety_CallErrorCallback_ctx,
          Safety_LogError_ctx]
    · fin_cases he <;>
        simp [Safety_ReportError, Safety_CallErrorCallback_ctx,
          Safety_LogError_ctx]
    · fin_cases he <;>
        simp [Safety_ReportError, Safety_CallErrorCallback_ctx,
          Safety_LogError_ctx]
    · fin_cases he <;>
        simp [Safety_ReportError, Safety_CallErrorCallback,
          Safety_LogError, hreg]

/-- Witness for C3 at concrete inputs: a RAM-test failure forces `Safe` from
the initial state; a Flash-CRC failure takes the normal-state world to
`Degraded`; a stack-overflow warning leaves the normal state unchanged. -/
theorem C3_witness :
    (Safety_ReportError 0 .ramTest 0 0 Safety_EarlyInit).ctx.state =
      .safe ∧
    (Safety_ReportError 0 .flashCrc 0 0 normalWorldExample).ctx.state =
      .degraded ∧
    (Safety_ReportError 0 .stackOverflow 0 0 normalWorldExample).ctx.state =
      normalWorldExample.ctx.state :=
  ⟨C3_severity_classification.1 .ramTest (by decide) Safety_EarlyInit 0 0 0,
   (C3_severity_classification.2.1 .flashCrc (by decide) normalWorldExample
      0 0 0).1 (by decide),
   (C3_severity_classification.2.2 .stackOverflow (by decide)
      normalWorldExample 0 0 0).1⟩

/-! ## Helper lemmas for the error-log ring buffer -/

theorem getD_set_self {α : Type} (l : List α) (i : Nat) (a d : α)
    (h : i < l.length) : (l.set i a).getD i d = a := by
  induction l generalizing i with
  | nil => simp at h
  | cons x t ih =>
    cases i with
    | zero => rfl
    | succ i => simpa using ih i (by simpa using h)

theorem getD_set_ne {α : Type} (l : List α) (i j : Nat) (a d : α)
    (h : i ≠ j) : (l.set i a).getD j d = l.getD j d := by
  induction l generalizing i j with
  | nil => simp [List.set]
  | cons x t ih =>
    cases i with
    | zero =>
      cases j with
      | zero => exact absurd rfl h
      | succ j => simp
    | succ i =>
      cases j with
      | zero => simp
      | succ j => simpa using ih i j (fun hc => h (by rw [hc]))

theorem Safety_CallErrorCallback_errorLog (e : SafetyError) (w : CoreWorld) :
    (Safety_CallErrorCallback e w).errorLog = w.errorLog := by
  unfold Safety_CallErrorCallback; split <;> rfl

theorem Safety_CallErrorCallback_logIndex (e : SafetyError) (w : CoreWorld) :
    (Safety_CallErrorCallback e w).logIndex = w.logIndex := by
  unfold Safety_CallErrorCallback; split <;> rfl

theorem Safety_CallStateCallback_errorLog (o n : SafetyState)
    (w : CoreWorld) : (Safety_CallStateCallback o n w).errorLog =
      w.errorLog := by
  unfold Safety_CallStateCallback; split <;> rfl

theorem Safety_CallStateCallback_logIndex (o n : SafetyState)
    (w : CoreWorld) : (Safety_CallStateCallback o n w).logIndex =
      w.logIndex := by
  unfold Safety_CallStateCallback; split <;> rfl

theorem Safety_EnterSafeState_count (now : Nat) (e : SafetyError)
    (w : CoreWorld) : (Safety_EnterSafeState now e w).ctx.error_count =
      (w.ctx.error_count + 1) % UINT32_MOD := by
  rw [Safety_EnterSafeState_ctx]

theorem Safety_EnterSafeState_errorLog (now : Nat) (e : SafetyError)
    (w : CoreWorld) : (Safety_EnterSafeState now e w).errorLog =
      w.errorLog.set w.logIndex ⟨now, e.code, 0, 0⟩ := by
  unfold Safety_EnterSafeState
  rw [Safety_CallErrorCallback_errorLog, Safety_CallStateCallback_errorLog]
  rfl

theorem Safety_EnterSafeState_logIndex (now : Nat) (e : SafetyError)
    (w : CoreWorld) : (Safety_EnterSafeState now e w).logIndex =
      (w.logIndex + 1) % ERROR_LOG_MAX_ENTRIES := by
  unfold Safety_EnterSafeState
  rw [Safety_CallErrorCallback_logIndex, Safety_CallStateCallback_logIndex]
  rfl

theorem Safety_ReportError_critical (e : SafetyError)
    (he : e ∈ criticalErrors) (now p1 p2 : Nat) (w : CoreWorld) :
    Safety_ReportError now e p1 p2 w =
      Safety_EnterSafeState now e
        { Safety_LogError now e p1 p2 w with
          ctx := { (Safety_LogError now e p1 p2 w).ctx with
            last_error := e,
            error_count := ((Safety_LogError now e p1 p2 w).ctx.error_count
              + 1) % UINT32_MOD } } := by
  fin_cases he <;> rfl

/-- Claim C10 (implicit): for every critical error code, a single call of
Safety_ReportError writes two entries into the 16-entry error-log ring
buffer — one from ReportError itself with (p1, p2) and one from the
Safety_EnterSafeState it invokes with (0, 0) — and increments the error
counter by exactly 2, so after n critical reports from a fresh init the
counter reads 2·n (mod 2^32), not n. -/
theorem C10_critical_double_logging :
    (∀ e ∈ criticalErrors, ∀ (w : CoreWorld) (now p1 p2 : Nat),
        w.errorLog.length = ERROR_LOG_MAX_ENTRIES →
        w.logIndex < ERROR_LOG_MAX_ENTRIES →
        (Safety_ReportError now e p1 p2 w).ctx.error_count =
          (w.ctx.error_count + 2) % UINT32_MOD ∧
        (Safety_ReportError now e p1 p2 w).logIndex =
          (w.logIndex + 2) % ERROR_LOG_MAX_ENTRIES ∧
        (Safety_ReportError now e p1 p2 w).errorLog.getD w.logIndex
            ⟨0, 0, 0, 0⟩ = ⟨now, e.code, p1, p2⟩ ∧
        (Safety_ReportError now e p1 p2 w).errorLog.getD
            ((w.logIndex + 1) % ERROR_LOG_MAX_ENTRIES) ⟨0, 0, 0, 0⟩ =
          ⟨now, e.code, 0, 0⟩) ∧
    (∀ e ∈ criticalErrors, ∀ n : Nat,
        (reportCriticalRun e n).ctx.error_count = (2 * n) % UINT32_MOD) := by
  constructor
  · intro e he w now p1 p2 hlen hidx
    rw [Safety_ReportError_critical e he now p1 p2 w]
    refine ⟨?_, ?_, ?_, ?_⟩
    · rw [Safety_EnterSafeState_count]
      dsimp [Safety_LogError]
      unfold UINT32_MOD
      omega
    · rw [Safety_EnterSafeState_logIndex]
      dsimp [Safety_LogError]
      unfold ERROR_LOG_MAX_ENTRIES
      omega
    · rw [Safety_EnterSafeState_errorLog]
      dsimp [Safety_LogError]
      rw [getD_set_ne _ _ _ _ _ (by unfold ERROR_LOG_MAX_ENTRIES at hidx ⊢; omega)]
      exact getD_set_self _ _ _ _ (hlen ▸ hidx)
    · rw [Safety_EnterSafeState_errorLog]
      dsimp [Safety_LogError]
      apply getD_set_self
      simp only [List.length_set, hlen]
      unfold ERROR_LOG_MAX_ENTRIES
      omega
  · intro e he n
    induction n with
    | zero => rfl
    | succ n ih =>
      have hcount :
          (Safety_ReportError 0 e 0 0 (reportCriticalRun e n)).ctx.error_count
            = ((reportCriticalRun e n).ctx.error_count + 2) % UINT32_MOD := by
        rw [Safety_ReportError_critical e he, Safety_EnterSafeState_count]
        dsimp [Safety_LogError]
        unfold UINT32_MOD
        omega
      rw [reportCriticalRun, hcount, ih]
      unfold UINT32_MOD
      omega

/-- Witness for C10 at concrete inputs: a CPU-test failure reported on the
fresh world writes the two expected entries and bumps the counter to 2, and
three critical reports leave the counter at 6. -/
theorem C10_witness :
    ((Safety_ReportError 7 .cpuTest 1 2 Safety_EarlyInit).ctx.error_count =
        (Safety_EarlyInit.ctx.error_count + 2) % UINT32_MOD ∧
      (Safety_ReportError 7 .cpuTest 1 2 Safety_EarlyInit).logIndex =
        (Safety_EarlyInit.logIndex + 2) % ERROR_LOG_MAX_ENTRIES ∧
      (Safety_ReportError 7 .cpuTest 1 2 Safety_EarlyInit).errorLog.getD
          Safety_EarlyInit.logIndex ⟨0, 0, 0, 0⟩ =
        ⟨7, SafetyError.cpuTest.code, 1, 2⟩ ∧
      (Safety_ReportError 7 .cpuTest 1 2 Safety_EarlyInit).errorLog.getD
          ((Safety_EarlyInit.logIndex + 1) % ERROR_LOG_MAX_ENTRIES)
          ⟨0, 0, 0, 0⟩ = ⟨7, SafetyError.cpuTest.code, 0, 0⟩) ∧
    (reportCriticalRun .cpuTest 3).ctx.error_count = (2 * 3) % UINT32_MOD :=
  ⟨C10_critical_double_logging.1 .cpuTest (by decide) Safety_EarlyInit 7 1 2
     (by decide) (by decide),
   C10_critical_double_logging.2 .cpuTest (by decide) 3⟩

/-- Claim C4: when Safety_Watchdog_Process evaluates a feed decision (the
watchdog is enabled and a feed period has elapsed) with degraded mode off,
the token check passes iff every bit set in tokens_required is present in
tokens_received with a recorded timestamp within 800 ms of now (a stale
token fails the check exactly like a missing one); on pass it feeds the
primary watchdog (feed count increments), resets tokens_received to 0 and
advances last_feed_time to now; on failure it reports a Watchdog error to
the safety core, enters degraded watchdog mode, and still feeds this one
cycle. -/
theorem C4_watchdog_token_protocol :
    ∀ (w : WdgWorld) (core : CoreWorld) (now : Nat),
      w.initialized = true → w.status.enabled = true →
      w.status.degraded_mode = false →
      WDG_FEED_PERIOD_MS ≤ u32sub now w.status.last_feed_time →
      ((Safety_Watchdog_CheckAllTokens now w = true) ↔
        (∀ i < 8, w.status.tokens_required.testBit i = true →
          w.status.tokens_received.testBit i = true ∧
          u32sub now (w.token_timestamp.getD i 0) ≤ WDG_TOKEN_TIMEOUT_MS)) ∧
      (Safety_Watchdog_CheckAllTokens now w = true →
        Safety_Watchdog_Process now w core =
          ({ w with status := { w.status with
              last_feed_time := now,
              feed_count := (w.status.feed_count + 1) % UINT32_MOD,
              tokens_received := 0 } }, core)) ∧
      (Safety_Watchdog_CheckAllTokens now w = false →
        Safety_Watchdog_Process now w core =
          ({ w with status := { w.status with
              degraded_mode := true,
              last_feed_time := now,
              feed_count := (w.status.feed_count + 1) % UINT32_MOD,
              tokens_received := 0 } },
           Safety_ReportError now .watchdog w.status.tokens_received
             w.status.tokens_required core)) := by
  intro w core now hinit hen hdeg hfeed
  refine ⟨?_, ?_, ?_⟩
  · simp only [Safety_Watchdog_CheckAllTokens, hinit, hdeg]
    simp [List.all_eq_true, List.mem_range]
    constructor
    · intro h i hi hreq
      have hh := h i hi
      simp [hreq] at hh
      exact hh
    · intro h i hi
      by_cases hreq : w.status.tokens_required.testBit i
      · simp [hreq]
        exact (h i hi hreq).1.symm ▸ (by simp [(h i hi hreq).1, (h i hi hreq).2])
      · simp [hreq]
  · intro hchk
    unfold Safety_Watchdog_Process Safety_Watchdog_FeedIWDG
    simp [hen, hdeg, hfeed, hchk]
  · intro hchk
    unfold Safety_Watchdog_Process Safety_Watchdog_FeedIWDG
      Safety_Watchdog_EnterDegraded
    simp [hen, hdeg, hfeed, hchk]

/-- Witness for C4 at concrete inputs: with all three required tokens
reported at t = 0 and the decision at t = 500 the check passes and the
watchdog is fed with the tokens cleared; with only tokens 0x03 reported the
next decision at t = 900 fails (bit 2 missing, and the others stale beyond
800 ms), reports a Watchdog error and enters degraded mode while still
feeding. -/
theorem C4_witness :
    (Safety_Watchdog_CheckAllTokens 500 wdgWorldExample = true ∧
     Safety_Watchdog_Process 500 wdgWorldExample Safety_EarlyInit =
       ({ wdgWorldExample with status := { wdgWorldExample.status with
           last_feed_time := 500,
           feed_count := (wdgWorldExample.status.feed_count + 1) % UINT32_MOD,
           tokens_received := 0 } }, Safety_EarlyInit)) ∧
    (Safety_Watchdog_CheckAllTokens 900 wdgMissingExample = false ∧
     Safety_Watchdog_Process 900 wdgMissingExample Safety_EarlyInit =
       ({ wdgMissingExample with status := { wdgMissingExample.status with
           degraded_mode := true,
           last_feed_time := 900,
           feed_count :=
             (wdgMissingExample.status.feed_count + 1) % UINT32_MOD,
           tokens_received := 0 } },
        Safety_ReportError 900 .watchdog
          wdgMissingExample.status.tokens_received
          wdgMissingExample.status.tokens_required Safety_EarlyInit)) :=
  ⟨⟨by decide,
    (C4_watchdog_token_protocol wdgWorldExample Safety_EarlyInit 500
      (by decide) (by decide) (by decide) (by decide)).2.1 (by decide)⟩,
   ⟨by decide,
    (C4_watchdog_token_protocol wdgMissingExample Safety_EarlyInit 900
      (by decide) (by decide) (by decide) (by decide)).2.2 (by decide)⟩⟩

theorem Safety_Monitor_DegradedCheck_of_safe (now : Nat) (w : CoreWorld)
    (h : w.ctx.state = .safe) :
    Safety_Monitor_DegradedCheck now w = w := by
  unfold Safety_Monitor_DegradedCheck
  simp [h]

theorem u32sub_eq_sub (a b : Nat) (hba : b ≤ a) (ha : a < UINT32_MOD) :
    u32sub a b = a - b := by
  unfold u32sub UINT32_MOD at *
  rw [Nat.mod_eq_of_lt (lt_of_le_of_lt hba ha)]
  have h : a + 4294967296 - b = (a - b) + 4294967296 := by omega
  rw [h, Nat.add_mod_right, Nat.mod_eq_of_lt (by omega)]

theorem degradedMonitorRun_upto_timeout :
    ∀ k ≤ 300, degradedMonitorRun degradedWorldExample k =
      degradedWorldExample := by
  intro k
  induction k with
  | zero => intro _; rfl
  | succ n ih =>
    intro hk
    have hst : degradedWorldExample.ctx.state = .degraded := by decide
    have het : degradedWorldExample.ctx.degraded_enter_time = 0 := by decide
    have hcond : ¬ (u32sub (SAFETY_MONITOR_PERIOD_MS * (n + 1))
        degradedWorldExample.ctx.degraded_enter_time >
        DEGRADED_MODE_TIMEOUT_MS) := by
      rw [het, u32sub_eq_sub _ _ (Nat.zero_le _)
        (by unfold SAFETY_MONITOR_PERIOD_MS UINT32_MOD; omega)]
      unfold SAFETY_MONITOR_PERIOD_MS DEGRADED_MODE_TIMEOUT_MS
      omega
    show Safety_Monitor_DegradedCheck _ (degradedMonitorRun _ n) = _
    rw [ih (by omega)]
    unfold Safety_Monitor_DegradedCheck
    rw [if_pos hst, if_neg hcond]

/-- Counterexample to claim C6 as stated: the world that entered DEGRADED at
t = 0 is still in DEGRADED after the monitor cycle at t = 30,000 ms (cycle
300 of the 100 ms loop), because the code forces SAFE only when the elapsed
time is strictly greater than DEGRADED_MODE_TIMEOUT_MS — so the state is not
forced to Safe at or before t = 30,000 ms. -/
theorem C6_counterexample :
    degradedWorldExample.ctx.state = .degraded ∧
    degradedWorldExample.ctx.degraded_enter_time = 0 ∧
    (degradedMonitorRun degradedWorldExample 300).ctx.state ≠ .safe ∧
    (degradedMonitorRun degradedWorldExample 300).ctx.state = .degraded := by
  rw [degradedMonitorRun_upto_timeout 300 (by omega)]
  refine ⟨by decide, by decide, by decide, by decide⟩

/-- Claim C6 (amended): if the system enters Degraded at t = 0 and never
transitions back to Normal, the supervisory loop forces SAFE at the first
monitor cycle whose elapsed time strictly exceeds 30,000 ms — with the
100 ms period, at t = 30,100 ms, i.e. at or before 30,000 ms plus one
monitor period but not by t = 30,000 ms itself — and the state stays SAFE
for every later cycle. -/
theorem C6_degraded_timeout :
    (degradedMonitorRun degradedWorldExample 301).ctx.state = .safe ∧
    (∀ k, 301 ≤ k →
      (degradedMonitorRun degradedWorldExample k).ctx.state = .safe) := by
  have hunf : ∀ m : Nat, degradedMonitorRun degradedWorldExample (m + 1) =
      Safety_Monitor_DegradedCheck (SAFETY_MONITOR_PERIOD_MS * (m + 1))
        (degradedMonitorRun degradedWorldExample m) := fun _ => rfl
  have h301 : (degradedMonitorRun degradedWorldExample 301).ctx.state =
      .safe := by
    rw [hunf 300, degradedMonitorRun_upto_timeout 300 (by omega)]
    decide
  refine ⟨h301, ?_⟩
  intro k hk
  induction k, hk using Nat.le_induction with
  | base => exact h301
  | succ n hn ih =>
    rw [hunf n, Safety_Monitor_DegradedCheck_of_safe _ _ ih]
    exact ih

/-- Witness for C6 (amended) at a concrete later cycle: the state is SAFE at
cycle 305 (t = 30,500 ms). -/
theorem C6_witness :
    (degradedMonitorRun degradedWorldExample 305).ctx.state = .safe :=
  C6_degraded_timeout.2 305 (by decide)

/-! ## Helper lemmas for the flow signature -/

theorem mask32_eq_mod (x : Nat) : x &&& 0xFFFFFFFF = x % UINT32_MOD := by
  have h : (0xFFFFFFFF : Nat) = 2 ^ 32 - 1 := by norm_num
  have h2 : UINT32_MOD = 2 ^ 32 := by norm_num [UINT32_MOD]
  rw [h, h2]
  exact Nat.and_pow_two_sub_one_eq_mod x 32

theorem two_mul_lor_one (a : Nat) : (2 * a) ||| 1 = 2 * a + 1 := by
  apply Nat.eq_of_testBit_eq
  intro i
  cases i with
  | zero =>
    have h2a : (2 * a).testBit 0 = false := by
      simp [Nat.testBit_to_div_mod]
    have h2a1 : (2 * a + 1).testBit 0 = true := by
      simp [Nat.testBit_to_div_mod]
      omega
    simp [Nat.testBit_lor, h2a, h2a1]
  | succ i =>
    rw [Nat.testBit_lor, Nat.testBit_add_one, Nat.testBit_add_one,
      Nat.testBit_add_one]
    have e1 : 2 * a / 2 = a := by omega
    have e2 : (2 * a + 1) / 2 = a := by omega
    have e3 : (1 : Nat) / 2 = 0 := rfl
    rw [e1, e2, e3, Nat.zero_testBit, Bool.or_false]

theorem rotl_or_eq_add (sig : Nat) (h : sig < UINT32_MOD) :
    ((sig <<< 1) &&& 0xFFFFFFFF) ||| (sig >>> 31) =
      ((sig <<< 1) + (sig >>> 31)) % UINT32_MOD := by
  have hM : UINT32_MOD = 4294967296 := rfl
  have h' : sig < 4294967296 := hM ▸ h
  rw [mask32_eq_mod, Nat.shiftLeft_eq, Nat.shiftRight_eq_div_pow, hM]
  have p1 : (2 : Nat) ^ 1 = 2 := by norm_num
  have p31 : (2 : Nat) ^ 31 = 2147483648 := by norm_num
  rw [p1, p31]
  rcases Nat.lt_or_ge sig 2147483648 with hlt | hge
  · have hd : sig / 2147483648 = 0 := Nat.div_eq_of_lt hlt
    have hm : sig * 2 % 4294967296 = sig * 2 := Nat.mod_eq_of_lt (by omega)
    rw [hd, Nat.add_zero, hm, Nat.or_zero]
  · have hd : sig / 2147483648 = 1 := by omega
    have hm : sig * 2 % 4294967296 = 2 * (sig - 2147483648) := by omega
    rw [hd, hm, two_mul_lor_one]
    omega

theorem FLOW_UPDATE_SIGNATURE_eq_refMix (sig cp : Nat)
    (h : sig < UINT32_MOD) :
    FLOW_UPDATE_SIGNATURE sig cp = flowRefMix sig cp := by
  unfold FLOW_UPDATE_SIGNATURE flowRefMix flowRefRotl1
  rw [rotl_or_eq_add sig h]

theorem FLOW_UPDATE_SIGNATURE_lt (sig cp : Nat) (h : sig < UINT32_MOD) :
    FLOW_UPDATE_SIGNATURE sig cp < UINT32_MOD := by
  unfold FLOW_UPDATE_SIGNATURE
  have hM : UINT32_MOD = 2 ^ 32 := by norm_num [UINT32_MOD]
  rw [hM]
  apply Nat.xor_lt_two_pow
  · apply Nat.or_lt_two_pow
    · have h1 : (sig <<< 1) &&& 0xFFFFFFFF ≤ 0xFFFFFFFF := Nat.and_le_right
      norm_num at h1 ⊢
      omega
    · rw [Nat.shiftRight_eq_div_pow]
      have h2 : sig / 2 ^ 31 ≤ sig := Nat.div_le_self _ _
      rw [hM] at h
      omega
  · apply Nat.mod_lt
    norm_num [UINT32_MOD]

theorem Safety_Flow_Checkpoint_signature (now cp : Nat) (c : FlowCtx) :
    (Safety_Flow_Checkpoint now cp c).signature =
      FLOW_UPDATE_SIGNATURE c.signature cp := by
  unfold Safety_Flow_Checkpoint
  dsimp only
  split <;> rfl

theorem flowRun_signature (now : Nat) :
    ∀ (cps : List Nat) (c : FlowCtx),
      (flowRun now cps c).signature =
        cps.foldl FLOW_UPDATE_SIGNATURE c.signature := by
  intro cps
  induction cps with
  | nil => intro c; rfl
  | cons cp t ih =>
    intro c
    show (flowRun now t (Safety_Flow_Checkpoint now cp c)).signature = _
    rw [ih, Safety_Flow_Checkpoint_signature, List.foldl_cons]

theorem foldl_update_eq_refFold :
    ∀ (cps : List Nat) (sig : Nat), sig < UINT32_MOD →
      cps.foldl FLOW_UPDATE_SIGNATURE sig = cps.foldl flowRefMix sig := by
  intro cps
  induction cps with
  | nil => intro sig _; rfl
  | cons cp t ih =>
    intro sig h
    rw [List.foldl_cons, List.foldl_cons,
      ih _ (FLOW_UPDATE_SIGNATURE_lt sig cp h),
      FLOW_UPDATE_SIGNATURE_eq_refMix sig cp h]

/-- Claim C9: every Safety_Flow_Checkpoint(cp) updates the signature as
sig' = rotate_left(sig,1) XOR (cp · 0x9E3779B9) seeded from 0x5A5A5A5A at
init and at reset, so the signature of any checkpoint sequence from a fresh
init or reset equals, bit for bit, the value of an independently written
reference implementation of the mixing fold (hence the same ordered
sequence always yields the same signature); the sequence [0x10, 0x11, 0x12]
yields 0x43B33780 = 1135876352, and each of the five non-identity
permutations of that sequence yields a different signature. -/
theorem C9_flow_signature :
    (∀ (now : Nat) (cps : List Nat),
        (flowRun now cps Safety_Flow_Init).signature =
          flowRefSignature FLOW_SIGNATURE_SEED cps) ∧
    (∀ (now : Nat) (cps : List Nat) (c : FlowCtx),
        (flowRun now cps (Safety_Flow_Reset c)).signature =
          flowRefSignature FLOW_SIGNATURE_SEED cps) ∧
    (flowRun 0 [0x10, 0x11, 0x12] Safety_Flow_Init).signature =
      1135876352 ∧
    ([[0x10, 0x12, 0x11], [0x11, 0x10, 0x12], [0x11, 0x12, 0x10],
      [0x12, 0x10, 0x11], [0x12, 0x11, 0x10]].all fun p =>
        (flowRun 0 p Safety_Flow_Init).signature ≠
          (flowRun 0 [0x10, 0x11, 0x12] Safety_Flow_Init).signature) := by
  have hseed : FLOW_SIGNATURE_SEED < UINT32_MOD := by
    norm_num [FLOW_SIGNATURE_SEED, UINT32_MOD]
  refine ⟨?_, ?_, by decide, by decide⟩
  · intro now cps
    rw [flowRun_signature]
    exact foldl_update_eq_refFold cps FLOW_SIGNATURE_SEED hseed
  · intro now cps c
    rw [flowRun_signature]
    exact foldl_update_eq_refFold cps FLOW_SIGNATURE_SEED hseed

/-! ## CRC32 linearity: a single corrupted bit always changes the CRC -/

theorem land_xor_distrib (x y m : Nat) :
    (x ^^^ y) &&& m = (x &&& m) ^^^ (y &&& m) := by
  apply Nat.eq_of_testBit_eq
  intro i
  simp [Nat.testBit_land, Nat.testBit_xor, Bool.and_xor_distrib_right]

theorem shiftLeft_xor_distrib (x y n : Nat) :
    (x ^^^ y) <<< n = (x <<< n) ^^^ (y <<< n) := by
  apply Nat.eq_of_testBit_eq
  intro i
  simp [Nat.testBit_shiftLeft, Nat.testBit_xor, Bool.and_xor_distrib_left]

theorem crc32Step_lt (c : Nat) : crc32Step c < 4294967296 := by
  have h1 : (c <<< 1) &&& 0xFFFFFFFF ≤ 0xFFFFFFFF := Nat.and_le_right
  unfold crc32Step CRC32_POLYNOMIAL
  split
  · have h2 : (c <<< 1) &&& 0xFFFFFFFF < 2 ^ 32 := by norm_num at h1 ⊢; omega
    have h3 : (0x04C11DB7 : Nat) < 2 ^ 32 := by norm_num
    have := Nat.xor_lt_two_pow h2 h3
    norm_num at this ⊢
    omega
  · norm_num at h1 ⊢
    omega

theorem nat_xor_left_comm (a b c : Nat) :
    a ^^^ (b ^^^ c) = b ^^^ (a ^^^ c) := by
  rw [← Nat.xor_assoc, Nat.xor_comm a b, Nat.xor_assoc]

theorem crc32Step_xor (a b : Nat) :
    crc32Step (a ^^^ b) = crc32Step a ^^^ crc32Step b := by
  unfold crc32Step
  rw [Nat.testBit_xor]
  cases ha : a.testBit 31 <;> cases hb : b.testBit 31 <;>
    simp [shiftLeft_xor_distrib, land_xor_distrib, Nat.xor_assoc,
      Nat.xor_comm, nat_xor_left_comm, Nat.xor_cancel_left]

theorem crc32Step_iterate_xor (n : Nat) :
    ∀ a b, crc32Step^[n] (a ^^^ b) =
      crc32Step^[n] a ^^^ crc32Step^[n] b := by
  induction n with
  | zero => intro a b; rfl
  | succ n ih =>
    intro a b
    rw [Function.iterate_succ_apply, Function.iterate_succ_apply,
      Function.iterate_succ_apply, crc32Step_xor, ih]

theorem crc32Word_xor (a b w v : Nat) :
    crc32Word (a ^^^ b) (w ^^^ v) = crc32Word a w ^^^ crc32Word b v := by
  unfold crc32Word
  rw [← crc32Step_iterate_xor]
  congr 1
  rw [← land_xor_distrib]
  congr 1
  simp [Nat.xor_assoc, Nat.xor_comm, nat_xor_left_comm]

theorem crc32Word_lt (c w : Nat) : crc32Word c w < 4294967296 := by
  unfold crc32Word
  rw [show (32 : Nat) = 31 + 1 from rfl, Function.iterate_succ_apply']
  exact crc32Step_lt _

theorem crc32Step_ne_zero (c : Nat) (h0 : c ≠ 0) (hlt : c < 4294967296) :
    crc32Step c ≠ 0 := by
  unfold crc32Step CRC32_POLYNOMIAL
  split
  · rename_i htb
    intro hEq
    have heq2 : (c <<< 1) &&& 0xFFFFFFFF = 0x04C11DB7 :=
      Nat.xor_eq_zero.mp hEq
    have hb := congrArg (fun x => Nat.testBit x 0) heq2
    simp [Nat.testBit_land, Nat.testBit_shiftLeft] at hb
  · rename_i htb
    intro hEq
    have hc31 : c < 2147483648 := by
      rcases Nat.lt_or_ge c 2147483648 with h | h
      · exact h
      · exfalso
        apply htb
        have p31 : (2 : Nat) ^ 31 = 2147483648 := by norm_num
        rw [Nat.testBit_to_div_mod, p31]
        have hq : c / 2147483648 = 1 := by omega
        simp [hq]
    have hmask : (c <<< 1) &&& 0xFFFFFFFF = 2 * c := by
      rw [mask32_eq_mod, Nat.shiftLeft_eq]
      have he : c * 2 ^ 1 = 2 * c := by ring
      have hM : UINT32_MOD = 4294967296 := rfl
      rw [he, hM]
      exact Nat.mod_eq_of_lt (by omega)
    rw [hmask] at hEq
    omega

theorem crc32Step_iterate_pos (n : Nat) :
    ∀ c, c ≠ 0 → c < 4294967296 →
      crc32Step^[n] c ≠ 0 ∧ crc32Step^[n] c < 4294967296 := by
  induction n with
  | zero => intro c h0 hl; exact ⟨h0, hl⟩
  | succ n ih =>
    intro c h0 hl
    rw [Function.iterate_succ_apply]
    exact ih _ (crc32Step_ne_zero c h0 hl) (crc32Step_lt c)

theorem crc32Word_zero_ne_zero (d : Nat) (h0 : d ≠ 0)
    (hl : d < 4294967296) : crc32Word d 0 ≠ 0 := by
  unfold crc32Word
  have hmask : (d ^^^ 0) &&& 0xFFFFFFFF = d := by
    have hM : UINT32_MOD = 4294967296 := rfl
    rw [Nat.xor_zero, mask32_eq_mod, hM]
    exact Nat.mod_eq_of_lt hl
  rw [hmask]
  exact (crc32Step_iterate_pos 32 d h0 hl).1

theorem crc32Word_pow_ne_zero (b : Nat) (hb : b < 32) :
    crc32Word 0 (1 <<< b) ≠ 0 := by
  unfold crc32Word
  rw [Nat.one_shiftLeft]
  have hlt : (2 : Nat) ^ b < 4294967296 := by
    have h1 : (2 : Nat) ^ b < 2 ^ 32 := Nat.pow_lt_pow_right (by omega) hb
    norm_num at h1
    omega
  have hne : (2 : Nat) ^ b ≠ 0 := Nat.pos_iff_ne_zero.mp (Nat.pos_pow_of_pos b (by omega))
  have hmask : ((0 : Nat) ^^^ 2 ^ b) &&& 0xFFFFFFFF = 2 ^ b := by
    have hM : UINT32_MOD = 4294967296 := rfl
    rw [Nat.zero_xor, mask32_eq_mod, hM]
    exact Nat.mod_eq_of_lt hlt
  rw [hmask]
  exact (crc32Step_iterate_pos 32 _ hne hlt).1

theorem crcWords_xor_ne :
    ∀ (t : List Nat) (x d : Nat), d ≠ 0 → d < 4294967296 →
      crcWords (x ^^^ d) t ≠ crcWords x t := by
  intro t
  induction t with
  | nil =>
    intro x d h0 _
    show x ^^^ d ≠ x
    intro hEq
    apply h0
    calc d = x ^^^ (x ^^^ d) := (Nat.xor_cancel_left x d).symm
    _ = x ^^^ x := by rw [hEq]
    _ = 0 := Nat.xor_self x
  | cons w t ih =>
    intro x d h0 hl
    show crcWords (crc32Word (x ^^^ d) w) t ≠ crcWords (crc32Word x w) t
    have hsplit : crc32Word (x ^^^ d) w =
        crc32Word x w ^^^ crc32Word d 0 := by
      have h := crc32Word_xor x d w 0
      rw [Nat.xor_zero] at h
      exact h
    rw [hsplit]
    exact ih (crc32Word x w) (crc32Word d 0)
      (crc32Word_zero_ne_zero d h0 hl) (crc32Word_lt d 0)

theorem crcWords_flip_ne :
    ∀ (ws : List Nat) (k b c : Nat), k < ws.length → b < 32 →
      crcWords c (ws.set k (ws.getD k 0 ^^^ (1 <<< b))) ≠ crcWords c ws := by
  intro ws
  induction ws with
  | nil => intro k b c hk _; simp at hk
  | cons w t ih =>
    intro k b c hk hb
    cases k with
    | zero =>
      show crcWords (crc32Word c (w ^^^ (1 <<< b))) t ≠
        crcWords (crc32Word c w) t
      have hsplit : crc32Word c (w ^^^ (1 <<< b)) =
          crc32Word c w ^^^ crc32Word 0 (1 <<< b) := by
        have h := crc32Word_xor c 0 w (1 <<< b)
        rw [Nat.xor_zero] at h
        exact h
      rw [hsplit]
      exact crcWords_xor_ne t _ _ (crc32Word_pow_ne_zero b hb)
        (crc32Word_lt 0 _)
    | succ k =>
      show crcWords (crc32Word c w)
          (t.set k (t.getD k 0 ^^^ (1 <<< b))) ≠
        crcWords (crc32Word c w) t
      exact ih k b (crc32Word c w) (by simpa using hk) hb

theorem paramsWords_flipHallBit (P : SafetyParams) (hwf : paramsWf P) :
    ∀ arm, arm < 4 → ∀ i, i < 3 → ∀ b : Nat,
      paramsWords (flipHallBit arm i b P) =
        (paramsWords P).set (2 + arm * 3 + i)
          ((paramsWords P).getD (2 + arm * 3 + i) 0 ^^^ (1 <<< b)) := by
  obtain ⟨h1, h2, h3, h4, _, _, _, _⟩ := hwf
  obtain ⟨o0, o1, o2, ho⟩ := List.length_eq_three.mp h1
  obtain ⟨g0, g1, g2, hg⟩ := List.length_eq_three.mp h2
  obtain ⟨p0, p1, p2, hp⟩ := List.length_eq_three.mp h3
  obtain ⟨q0, q1, q2, hq⟩ := List.length_eq_three.mp h4
  intro arm harm i hi b
  interval_cases arm <;> interval_cases i <;>
    simp [flipHallBit, flipBitAt, paramsWords, ho, hg, hp, hq]

/-- Claim C7 (amended): for a safety_params_t record whose header and stored
CRC are consistent, flipping one bit in either element of any
(primary, inverted) Hall offset/gain pair — leaving the rest of the record,
including the stored CRC32 field, unchanged — causes Safety_Params_Validate
to fail with PARAMS_ERR_CRC, not PARAMS_ERR_REDUNDANCY: the CRC check (step
2) covers the Hall arrays and precedes the redundancy check (step 6), and a
single-bit corruption always changes the computed CRC32. -/
theorem C7_redundancy_bitflip :
    ∀ (P : SafetyParams), paramsWf P →
      P.magic = SAFETY_PARAMS_MAGIC → P.size = SAFETY_PARAMS_SIZEOF →
      P.crc32 = Safety_Params_CalculateCRC P →
      ∀ arm, arm < 4 → ∀ i, i < 3 → ∀ b, b < 32 →
        ∀ (now : Nat) (pw : ParamsWorld) (core : CoreWorld),
          (Safety_Params_Validate (flipHallBit arm i b P) now pw core).1 =
            .errCrc := by
  intro P hwf hmagic hsize hcrc arm harm i hi b hb now pw core
  have hmagic' : (flipHallBit arm i b P).magic = SAFETY_PARAMS_MAGIC := by
    interval_cases arm <;> simpa [flipHallBit] using hmagic
  have hsize' : (flipHallBit arm i b P).size = SAFETY_PARAMS_SIZEOF := by
    interval_cases arm <;> simpa [flipHallBit] using hsize
  have hcrc32' : (flipHallBit arm i b P).crc32 = P.crc32 := by
    interval_cases arm <;> rfl
  have hlen : (paramsWords P).length = 41 := by
    obtain ⟨h1, h2, h3, h4, h5, h6, h7, h8⟩ := hwf
    simp [paramsWords, h1, h2, h3, h4, h5, h6, h7, h8]
  have hne : Safety_Params_CalculateCRC (flipHallBit arm i b P) ≠
      (flipHallBit arm i b P).crc32 := by
    rw [hcrc32', hcrc]
    unfold Safety_Params_CalculateCRC
    rw [paramsWords_flipHallBit P hwf arm harm i hi b]
    exact crcWords_flip_ne (paramsWords P) (2 + arm * 3 + i) b
      CRC32_INIT_VALUE (by omega) hb
  have hhdr : Params_ValidateHeader (flipHallBit arm i b P) = .valid := by
    unfold Params_ValidateHeader
    rw [if_neg (by simp [hmagic']), if_neg (by simp [hsize'])]
  have hcrcstep : Params_ValidateCRC (flipHallBit arm i b P) = .errCrc := by
    unfold Params_ValidateCRC
    rw [if_pos hne]
  simp [Safety_Params_Validate, hhdr, hcrcstep, paramsValidationFailed]

theorem crcWords_cons_step (c w : Nat) (t : List Nat) :
    crcWords c (w :: t) = crcWords (crc32Word c w) t := rfl

theorem crcWords_flashEnvExample :
    crcWords CRC32_INIT_VALUE [0] = 0xC704DD7B := by
  have h0 : crc32Word CRC32_INIT_VALUE 0 = 0xC704DD7B := by decide
  rw [crcWords_cons_step, h0]
  rfl

theorem Safety_Params_CalculateCRC_paramsExample :
    Safety_Params_CalculateCRC paramsExample = 0x19DBCB85 := by
  show crcWords CRC32_INIT_VALUE
    [0xCA11B000, 0x00A80100, 0x00000000, 0x00000000, 0x00000000,
     0x3F800000, 0x3F800000, 0x3F800000, 0xFFFFFFFF, 0xFFFFFFFF,
     0xFFFFFFFF, 0xC07FFFFF, 0xC07FFFFF, 0xC07FFFFF, 0x3F800000,
     0x3F800000, 0x3F800000, 0x3F800000, 0x3F800000, 0x3F800000,
     0x3F800000, 0x3F800000, 0x00000000, 0x00000000, 0x00000000,
     0x00000000, 0x00000000, 0x00000000, 0x00000000, 0x00000000,
     0x00000000, 0x00000000, 0x00000000, 0x00000000, 0x00000000,
     0x00000000, 0x00000000, 0x00000000, 0x00000000, 0x00000000,
     0x00000000] = 0x19DBCB85
  have h0 : crc32Word CRC32_INIT_VALUE 0xCA11B000 = 0x5B2DD1BA := by decide
  have h1 : crc32Word 0x5B2DD1BA 0x00A80100 = 0x1459BEE6 := by decide
  have h2 : crc32Word 0x1459BEE6 0x00000000 = 0xED92A23B := by decide
  have h3 : crc32Word 0xED92A23B 0x00000000 = 0xCBA7A1BF := by decide
  have h4 : crc32Word 0xCBA7A1BF 0x00000000 = 0xC9670C78 := by decide
  have h5 : crc32Word 0xC9670C78 0x3F800000 = 0x07548557 := by decide
  have h6 : crc32Word 0x07548557 0x3F800000 = 0x17E3289B := by decide
  have h7 : crc32Word 0x17E3289B 0x3F800000 = 0xF8E91FD9 := by decide
  have h8 : crc32Word 0xF8E91FD9 0xFFFFFFFF = 0x6417A4A9 := by decide
  have h9 : crc32Word 0x6417A4A9 0xFFFFFFFF = 0xAC67A129 := by decide
  have h10 : crc32Word 0xAC67A129 0xFFFFFFFF = 0x8CFDEDA0 := by decide
  have h11 : crc32Word 0x8CFDEDA0 0xC07FFFFF = 0x4B904D72 := by decide
  have h12 : crc32Word 0x4B904D72 0xC07FFFFF = 0xDF904BEB := by decide
  have h13 : crc32Word 0xDF904BEB 0xC07FFFFF = 0x10956367 := by decide
  have h14 : crc32Word 0x10956367 0x3F800000 = 0xB55D6550 := by decide
  have h15 : crc32Word 0xB55D6550 0x3F800000 = 0xE2D14C45 := by decide
  have h16 : crc32Word 0xE2D14C45 0x3F800000 = 0x1E839ECF := by decide
  have h17 : crc32Word 0x1E839ECF 0x3F800000 = 0xAC6BBB94 := by decide
  have h18 : crc32Word 0xAC6BBB94 0x3F800000 = 0xE085E5AF := by decide
  have h19 : crc32Word 0xE085E5AF 0x3F800000 = 0xDE077125 := by decide
  have h20 : crc32Word 0xDE077125 0x3F800000 = 0x8467A835 := by decide
  have h21 : crc32Word 0x8467A835 0x3F800000 = 0x6D756209 := by decide
  have h22 : crc32Word 0x6D756209 0x00000000 = 0xD758CBBD := by decide
  have h23 : crc32Word 0xD758CBBD 0x00000000 = 0x4E9D50F0 := by decide
  have h24 : crc32Word 0x4E9D50F0 0x00000000 = 0xC91A9786 := by decide
  have h25 : crc32Word 0xC91A9786 0x00000000 = 0x9414CA1E := by decide
  have h26 : crc32Word 0x9414CA1E 0x00000000 = 0xAE003424 := by decide
  have h27 : crc32Word 0xAE003424 0x00000000 = 0x8BFBCB9A := by decide
  have h28 : crc32Word 0x8BFBCB9A 0x00000000 = 0xBECBF905 := by decide
  have h29 : crc32Word 0xBECBF905 0x00000000 = 0xA863A96C := by decide
  have h30 : crc32Word 0xA863A96C 0x00000000 = 0x9965968C := by decide
  have h31 : crc32Word 0x9965968C 0x00000000 = 0x14FA3A1F := by decide
  have h32 : crc32Word 0x14FA3A1F 0x00000000 = 0x546170E5 := by decide
  have h33 : crc32Word 0x546170E5 0x00000000 = 0xB5CC603F := by decide
  have h34 : crc32Word 0xB5CC603F 0x00000000 = 0x05C1BEDE := by decide
  have h35 : crc32Word 0x05C1BEDE 0x00000000 = 0xCBC87ACF := by decide
  have h36 : crc32Word 0xCBC87ACF 0x00000000 = 0x441BB054 := by decide
  have h37 : crc32Word 0x441BB054 0x00000000 = 0x652D2DE7 := by decide
  have h38 : crc32Word 0x652D2DE7 0x00000000 = 0x4E300928 := by decide
  have h39 : crc32Word 0x4E300928 0x00000000 = 0x28F3EDC5 := by decide
  have h40 : crc32Word 0x28F3EDC5 0x00000000 = 0x19DBCB85 := by decide
  rw [crcWords_cons_step, h0, crcWords_cons_step, h1,
    crcWords_cons_step, h2, crcWords_cons_step, h3, crcWords_cons_step,
    h4, crcWords_cons_step, h5, crcWords_cons_step, h6,
    crcWords_cons_step, h7, crcWords_cons_step, h8, crcWords_cons_step,
    h9, crcWords_cons_step, h10, crcWords_cons_step, h11,
    crcWords_cons_step, h12, crcWords_cons_step, h13, crcWords_cons_step,
    h14, crcWords_cons_step, h15, crcWords_cons_step, h16,
    crcWords_cons_step, h17, crcWords_cons_step, h18, crcWords_cons_step,
    h19, crcWords_cons_step, h20, crcWords_cons_step, h21,
    crcWords_cons_step, h22, crcWords_cons_step, h23, crcWords_cons_step,
    h24, crcWords_cons_step, h25, crcWords_cons_step, h26,
    crcWords_cons_step, h27, crcWords_cons_step, h28, crcWords_cons_step,
    h29, crcWords_cons_step, h30, crcWords_cons_step, h31,
    crcWords_cons_step, h32, crcWords_cons_step, h33, crcWords_cons_step,
    h34, crcWords_cons_step, h35, crcWords_cons_step, h36,
    crcWords_cons_step, h37, crcWords_cons_step, h38, crcWords_cons_step,
    h39, crcWords_cons_step, h40]
  rfl

theorem paramsExample_crc_consistent :
    paramsExample.crc32 = Safety_Params_CalculateCRC paramsExample := by
  rw [Safety_Params_CalculateCRC_paramsExample]
  rfl

theorem Params_ValidateCRC_paramsExample :
    Params_ValidateCRC paramsExample = .valid := by
  unfold Params_ValidateCRC
  rw [if_neg (by
    simp only [ne_eq, not_not]
    exact paramsExample_crc_consistent.symm)]

/-- Counterexample to claim C7 as stated: the concrete record
`paramsExample` is fully valid, yet flipping bit 0 of
hall_offset_inv[0] (leaving everything else, including the stored CRC,
unchanged) makes Safety_Params_Validate return PARAMS_ERR_CRC — not the
claimed PARAMS_ERR_REDUNDANCY — because the CRC check runs before the
redundancy check and the flip invalidates the stored CRC. -/
theorem C7_counterexample :
    (Safety_Params_Validate paramsExample 0 paramsWorldExample
        Safety_EarlyInit).1 = .valid ∧
    (Safety_Params_Validate (flipHallBit 2 0 0 paramsExample) 0
        paramsWorldExample Safety_EarlyInit).1 = .errCrc ∧
    ParamsResult.errCrc ≠ ParamsResult.errRedundancy := by
  refine ⟨?_, ?_, by decide⟩
  · have hhdr : Params_ValidateHeader paramsExample = .valid := by decide
    have hcrcstep : Params_ValidateCRC paramsExample = .valid :=
      Params_ValidateCRC_paramsExample
    have hhall : Params_ValidateHallParams paramsExample = .valid := by
      decide
    have hadc : Params_ValidateAdcParams paramsExample = .valid := by decide
    have hthr : Params_ValidateThresholds paramsExample = .valid := by decide
    have hred : Params_ValidateRedundancy paramsExample = .valid := by decide
    simp [Safety_Params_Validate, hhdr, hcrcstep, hhall, hadc, hthr, hred]
  · have hne : Safety_Params_CalculateCRC (flipHallBit 2 0 0 paramsExample) ≠
        (flipHallBit 2 0 0 paramsExample).crc32 := by
      have h1 : (flipHallBit 2 0 0 paramsExample).crc32 =
          paramsExample.crc32 := rfl
      rw [h1, paramsExample_crc_consistent]
      unfold Safety_Params_CalculateCRC
      rw [paramsWords_flipHallBit paramsExample
        ⟨rfl, rfl, rfl, rfl, rfl, rfl, rfl, rfl⟩ 2 (by decide) 0
        (by decide) 0]
      exact crcWords_flip_ne (paramsWords paramsExample) 8 0
        CRC32_INIT_VALUE (by decide) (by decide)
    have hhdr : Params_ValidateHeader (flipHallBit 2 0 0 paramsExample) =
        .valid := by decide
    have hcrcstep : Params_ValidateCRC (flipHallBit 2 0 0 paramsExample) =
        .errCrc := by
      unfold Params_ValidateCRC
      rw [if_pos hne]
    simp [Safety_Params_Validate, hhdr, hcrcstep, paramsValidationFailed]

/-- Witness for C7 (amended) at a concrete input: flipping bit 3 of
hall_offset_inv[0] of the valid record yields PARAMS_ERR_CRC. -/
theorem C7_witness :
    (Safety_Params_Validate (flipHallBit 2 0 3 paramsExample) 0
        paramsWorldExample Safety_EarlyInit).1 = .errCrc :=
  C7_redundancy_bitflip paramsExample
    ⟨rfl, rfl, rfl, rfl, rfl, rfl, rfl, rfl⟩ (by decide) (by decide)
    paramsExample_crc_consistent 2 (by decide) 0 (by decide) 3 (by decide) 0
    paramsWorldExample Safety_EarlyInit

theorem nat_xor_ne_self (x d : Nat) (hd : d ≠ 0) : d ^^^ x ≠ x := by
  intro hEq
  apply hd
  calc d = (d ^^^ x) ^^^ x := by rw [Nat.xor_assoc, Nat.xor_self, Nat.xor_zero]
  _ = x ^^^ x := by rw [hEq]
  _ = 0 := Nat.xor_self x

/-- Claim C5 (the code violates it): for any application image that fits in
a single incremental block and whose stored CRC matches the image — so that
the startup check Safety_SelfTest_FlashCRC(STARTUP) passes — the runtime
incremental check (Safety_SelfTest_FlashCRC(RUNTIME) followed by
Safety_SelfTest_FlashCRC_Continue until completion) returns
SELFTEST_FAIL_FLASH: Continue folds per-block CRCs with XOR into an
accumulator seeded with 0xFFFFFFFF instead of performing CRC continuation,
so its final value is 0xFFFFFFFF XOR CRC(image) ≠ CRC(image), and the two
modes disagree on the same image and stored CRC. -/
theorem C5_incremental_crc_divergence :
    ∀ (env : FlashEnv) (now : Nat) (core : CoreWorld),
      0 < env.appWords.length →
      4 * env.appWords.length ≤ SELFTEST_FLASH_CRC_BLOCK_SIZE →
      env.storedCrc = crcWords CRC32_INIT_VALUE env.appWords →
      (Safety_SelfTest_FlashCRC .startup now env
          (Safety_SelfTest_Init env) core).1 = .pass ∧
      (flashCrcContinueRun now env 2
          (Safety_SelfTest_FlashCRC .runtime now env
            (Safety_SelfTest_Init env) core).2.1
          (Safety_SelfTest_FlashCRC .runtime now env
            (Safety_SelfTest_Init env) core).2.2).1 = .failFlash := by
  intro env now core hpos hlen hcrc
  constructor
  · unfold Safety_SelfTest_FlashCRC
    rw [if_neg (by simp only [ne_eq, not_not]; exact hcrc.symm)]
  · have hrt : Safety_SelfTest_FlashCRC .runtime now env
        (Safety_SelfTest_Init env) core =
        (.inProgress,
         { current_offset := 0, accumulated_crc := CRC32_INIT_VALUE,
           total_size := 4 * env.appWords.length,
           block_size := SELFTEST_FLASH_CRC_BLOCK_SIZE,
           in_progress := true, completed := false }, core) := rfl
    rw [hrt]
    have h1 : ¬ (4 * env.appWords.length - 0 >
        SELFTEST_FLASH_CRC_BLOCK_SIZE) := by
      unfold SELFTEST_FLASH_CRC_BLOCK_SIZE at hlen ⊢
      omega
    have h2 : 4 * env.appWords.length - 0 ≠ 0 := by omega
    have h3 : (4 * env.appWords.length - 0) / 4 = env.appWords.length := by
      omega
    have hc1 : Safety_SelfTest_FlashCRC_Continue now env
        { current_offset := 0, accumulated_crc := CRC32_INIT_VALUE,
          total_size := 4 * env.appWords.length,
          block_size := SELFTEST_FLASH_CRC_BLOCK_SIZE,
          in_progress := true, completed := false } core =
        (.inProgress,
         { current_offset := 0 + (4 * env.appWords.length - 0),
           accumulated_crc :=
             CRC32_INIT_VALUE ^^^ crcWords CRC32_INIT_VALUE env.appWords,
           total_size := 4 * env.appWords.length,
           block_size := SELFTEST_FLASH_CRC_BLOCK_SIZE,
           in_progress := true, completed := false }, core) := by
      unfold Safety_SelfTest_FlashCRC_Continue
      simp only [if_neg h1, if_neg h2]
      simp [h3, List.take_length]
    rw [show flashCrcContinueRun now env 2
        { current_offset := 0, accumulated_crc := CRC32_INIT_VALUE,
          total_size := 4 * env.appWords.length,
          block_size := SELFTEST_FLASH_CRC_BLOCK_SIZE,
          in_progress := true, completed := false } core =
        flashCrcContinueRun now env 1
          { current_offset := 0 + (4 * env.appWords.length - 0),
            accumulated_crc :=
              CRC32_INIT_VALUE ^^^ crcWords CRC32_INIT_VALUE env.appWords,
            total_size := 4 * env.appWords.length,
            block_size := SELFTEST_FLASH_CRC_BLOCK_SIZE,
            in_progress := true, completed := false } core from by
      show (match Safety_SelfTest_FlashCRC_Continue now env _ core with
        | (.inProgress, ctx, core) => flashCrcContinueRun now env 1 ctx core
        | r => r) = _
      rw [hc1]]
    have h4 : 4 * env.appWords.length -
        (0 + (4 * env.appWords.length - 0)) = 0 := by omega
    have hc2 : Safety_SelfTest_FlashCRC_Continue now env
        { current_offset := 0 + (4 * env.appWords.length - 0),
          accumulated_crc :=
            CRC32_INIT_VALUE ^^^ crcWords CRC32_INIT_VALUE env.appWords,
          total_size := 4 * env.appWords.length,
          block_size := SELFTEST_FLASH_CRC_BLOCK_SIZE,
          in_progress := true, completed := false } core =
        (.failFlash,
         { current_offset := 0 + (4 * env.appWords.length - 0),
           accumulated_crc :=
             CRC32_INIT_VALUE ^^^ crcWords CRC32_INIT_VALUE env.appWords,
           total_size := 4 * env.appWords.length,
           block_size := SELFTEST_FLASH_CRC_BLOCK_SIZE,
           in_progress := false, completed := true },
         Safety_ReportError now .flashCrc
           (CRC32_INIT_VALUE ^^^ crcWords CRC32_INIT_VALUE env.appWords)
           env.storedCrc core) := by
      have hneq : CRC32_INIT_VALUE ^^^ crcWords CRC32_INIT_VALUE
          env.appWords ≠ env.storedCrc := by
        rw [hcrc]
        exact nat_xor_ne_self (crcWords CRC32_INIT_VALUE env.appWords)
          CRC32_INIT_VALUE (by norm_num [CRC32_INIT_VALUE])
      unfold Safety_SelfTest_FlashCRC_Continue
      simp only [h4]
      simp [hneq, SELFTEST_FLASH_CRC_BLOCK_SIZE]
    show (match Safety_SelfTest_FlashCRC_Continue now env _ core with
      | (.inProgress, ctx, core) => flashCrcContinueRun now env 0 ctx core
      | r => r).1 = _
    rw [hc2]

/-- Witness for C5 at the concrete failing input `flashEnvExample` (a
single-word image with matching stored CRC): the startup check passes and
the runtime incremental check fails. -/
theorem C5_witness :
    (Safety_SelfTest_FlashCRC .startup 0 flashEnvExample
        (Safety_SelfTest_Init flashEnvExample) Safety_EarlyInit).1 =
      .pass ∧
    (flashCrcContinueRun 0 flashEnvExample 2
        (Safety_SelfTest_FlashCRC .runtime 0 flashEnvExample
          (Safety_SelfTest_Init flashEnvExample) Safety_EarlyInit).2.1
        (Safety_SelfTest_FlashCRC .runtime 0 flashEnvExample
          (Safety_SelfTest_Init flashEnvExample) Safety_EarlyInit).2.2).1 =
      .failFlash :=
  C5_incremental_crc_divergence flashEnvExample 0 Safety_EarlyInit
    (by decide) (by decide) crcWords_flashEnvExample.symm

/-- Claim C8: Safety_Params_Validate performs, in order and stopping at the
first failure, (1) the header check — a wrong magic fails with
PARAMS_ERR_MAGIC, a wrong size with PARAMS_ERR_SIZE (the version comparison
in the source is diagnostic only), (2) the CRC32 check over the structure
excluding its trailing CRC field (PARAMS_ERR_CRC), (3) the range checks
with explicit NaN/Inf rejection for Hall offsets/gains
(PARAMS_ERR_HALL_RANGE), ADC gains/offsets (PARAMS_ERR_ADC_RANGE) and
safety thresholds (PARAMS_ERR_THRESHOLD), and (4) the redundancy check that
each inverted copy is the bitwise NOT of its primary
(PARAMS_ERR_REDUNDANCY); each conjunct holds whatever the outcomes of the
later steps are, on any failure nothing is cached and Safety_Params_Get
returns NULL, and on success the validated structure is cached and returned
by Safety_Params_Get. -/
theorem C8_validate_order :
    ∀ (P : SafetyParams) (now : Nat) (pw : ParamsWorld) (core : CoreWorld),
      (P.magic ≠ SAFETY_PARAMS_MAGIC →
        (Safety_Params_Validate P now pw core).1 = .errMagic) ∧
      (P.magic = SAFETY_PARAMS_MAGIC → P.size ≠ SAFETY_PARAMS_SIZEOF →
        (Safety_Params_Validate P now pw core).1 = .errSize) ∧
      (Params_ValidateHeader P = .valid → Params_ValidateCRC P ≠ .valid →
        (Safety_Params_Validate P now pw core).1 = .errCrc) ∧
      (Params_ValidateHeader P = .valid → Params_ValidateCRC P = .valid →
        Params_ValidateHallParams P ≠ .valid →
        (Safety_Params_Validate P now pw core).1 = .errHallRange) ∧
      (Params_ValidateHeader P = .valid → Params_ValidateCRC P = .valid →
        Params_ValidateHallParams P = .valid →
        Params_ValidateAdcParams P ≠ .valid →
        (Safety_Params_Validate P now pw core).1 = .errAdcRange) ∧
      (Params_ValidateHeader P = .valid → Params_ValidateCRC P = .valid →
        Params_ValidateHallParams P = .valid →
        Params_ValidateAdcParams P = .valid →
        Params_ValidateThresholds P ≠ .valid →
        (Safety_Params_Validate P now pw core).1 = .errThreshold) ∧
      (Params_ValidateHeader P = .valid → Params_ValidateCRC P = .valid →
        Params_ValidateHallParams P = .valid →
        Params_ValidateAdcParams P = .valid →
        Params_ValidateThresholds P = .valid →
        Params_ValidateRedundancy P ≠ .valid →
        (Safety_Params_Validate P now pw core).1 = .errRedundancy) ∧
      ((Safety_Params_Validate P now pw core).1 ≠ .valid →
        (Safety_Params_Validate P now pw core).2.1.valid = false ∧
        Safety_Params_Get (Safety_Params_Validate P now pw core).2.1 =
          none) ∧
      (Params_ValidateHeader P = .valid → Params_ValidateCRC P = .valid →
        Params_ValidateHallParams P = .valid →
        Params_ValidateAdcParams P = .valid →
        Params_ValidateThresholds P = .valid →
        Params_ValidateRedundancy P = .valid →
        (Safety_Params_Validate P now pw core).1 = .valid ∧
        (Safety_Params_Validate P now pw core).2.1.valid = true ∧
        (Safety_Params_Validate P now pw core).2.1.cached = P ∧
        Safety_Params_Get (Safety_Params_Validate P now pw core).2.1 =
          some P) ∧
      (∀ v lo hi, f32isNan v = true ∨ f32isInf v = true →
        Params_FloatInRange v lo hi = false) := by
  intro P now pw core
  have hcrcC : Params_ValidateCRC P = .valid ∨
      Params_ValidateCRC P = .errCrc := by
    unfold Params_ValidateCRC; split <;> simp
  have hhallC : Params_ValidateHallParams P = .valid ∨
      Params_ValidateHallParams P = .errHallRange := by
    unfold Params_ValidateHallParams; split <;> simp
  have hadcC : Params_ValidateAdcParams P = .valid ∨
      Params_ValidateAdcParams P = .errAdcRange := by
    unfold Params_ValidateAdcParams; split <;> simp
  have hthrC : Params_ValidateThresholds P = .valid ∨
      Params_ValidateThresholds P = .errThreshold := by
    unfold Params_ValidateThresholds; split <;> simp
  have hredC : Params_ValidateRedundancy P = .valid ∨
      Params_ValidateRedundancy P = .errRedundancy := by
    unfold Params_ValidateRedundancy; split <;> simp
  refine ⟨?_, ?_, ?_, ?_, ?_, ?_, ?_, ?_, ?_, ?_⟩
  · intro hm
    have h1 : Params_ValidateHeader P = .errMagic := by
      unfold Params_ValidateHeader; rw [if_pos hm]
    simp [Safety_Params_Validate, h1, paramsValidationFailed]
  · intro hm hs
    have h1 : Params_ValidateHeader P = .errSize := by
      unfold Params_ValidateHeader
      rw [if_neg (by simp [hm]), if_pos hs]
    simp [Safety_Params_Validate, h1, paramsValidationFailed]
  · intro hh hc
    have h2 := hcrcC.resolve_left hc
    simp [Safety_Params_Validate, hh, h2, paramsValidationFailed]
  · intro hh hc hhall
    have h3 := hhallC.resolve_left hhall
    simp [Safety_Params_Validate, hh, hc, h3, paramsValidationFailed]
  · intro hh hc hhall hadc
    have h4 := hadcC.resolve_left hadc
    simp [Safety_Params_Validate, hh, hc, hhall, h4,
      paramsValidationFailed]
  · intro hh hc hhall hadc hthr
    have h5 := hthrC.resolve_left hthr
    simp [Safety_Params_Validate, hh, hc, hhall, hadc, h5,
      paramsValidationFailed]
  · intro hh hc hhall hadc hthr hred
    have h6 := hredC.resolve_left hred
    simp [Safety_Params_Validate, hh, hc, hhall, hadc, hthr, h6,
      paramsValidationFailed]
  · intro hne
    have hhdrC : Params_ValidateHeader P = .valid ∨
        Params_ValidateHeader P = .errMagic ∨
        Params_ValidateHeader P = .errSize := by
      unfold Params_ValidateHeader; split_ifs <;> simp
    rcases hhdrC with h1 | h1 | h1 <;> rcases hcrcC with h2 | h2 <;>
      rcases hhallC with h3 | h3 <;> rcases hadcC with h4 | h4 <;>
      rcases hthrC with h5 | h5 <;> rcases hredC with h6 | h6 <;>
      simp_all [Safety_Params_Validate, paramsValidationFailed,
        Safety_Params_Get]
  · intro hh hc hhall hadc hthr hred
    simp [Safety_Params_Validate, hh, hc, hhall, hadc, hthr, hred,
      Safety_Params_Get]
  · intro v lo hi hnan
    unfold Params_FloatInRange
    rcases hnan with h | h <;> simp [h]

/-- Witness for C8 at concrete inputs: the valid record passes all six
steps, is cached and returned by Safety_Params_Get; the same record with a
zeroed magic fails the first step with PARAMS_ERR_MAGIC. -/
theorem C8_witness :
    ((Safety_Params_Validate paramsExample 0 paramsWorldExample
        Safety_EarlyInit).1 = .valid ∧
      (Safety_Params_Validate paramsExample 0 paramsWorldExample
        Safety_EarlyInit).2.1.valid = true ∧
      (Safety_Params_Validate paramsExample 0 paramsWorldExample
        Safety_EarlyInit).2.1.cached = paramsExample ∧
      Safety_Params_Get (Safety_Params_Validate paramsExample 0
        paramsWorldExample Safety_EarlyInit).2.1 = some paramsExample) ∧
    (Safety_Params_Validate { paramsExampleBase with magic := 0 } 0
        paramsWorldExample Safety_EarlyInit).1 = .errMagic :=
  ⟨(C8_validate_order paramsExample 0 paramsWorldExample
      Safety_EarlyInit).2.2.2.2.2.2.2.2.1 (by decide)
      Params_ValidateCRC_paramsExample (by decide) (by decide) (by decide)
      (by decide),
   (C8_validate_order { paramsExampleBase with magic := 0 } 0
      paramsWorldExample Safety_EarlyInit).1 (by decide)⟩

end TKX
